import Mathlib

/-!
Shallow embedding of the attendance session and marking engine of the
coaching-institute back office (Django source under `apps/`): data model
(`apps/attendance/models.py`, `apps/academics/models.py`, `apps/orgs/models.py`,
`apps/accounts/models.py`), tenant resolution (`apps/common/tenant.py`),
permissions (`apps/common/permissions.py`), the attendance API
(`apps/attendance/api/views.py`, `apps/attendance/api/serializers.py`) and the
report views (`apps/attendance/api/views_reports.py`).

Database tables are modelled as lists of records inside a `DB` structure;
Django querysets become list filters, `update_or_create` becomes an explicit
keyed upsert, and view/serializer failure paths become `Except` errors.
Primary keys, public identifiers, users and timestamps are `Nat`;
geographic coordinates are `ℚ`.  The haversine distance computation
(`serializers.py` lines 97-104) uses real trigonometric functions, so the
operations that consume it are parameterised by an arbitrary distance
function `dist : ℚ → ℚ → ℚ → ℚ → Nat`; no claim here depends on the
trigonometric value itself, only on how the result gates the operation.
-/

namespace Coach

/-- `SessionStatus` text choices (`attendance/models.py` lines 15-18). -/
inductive SessionStatus
  | OPEN
  | CLOSED
  | CANCELLED
deriving DecidableEq, Repr

/-- `AttendanceStatus` text choices (`attendance/models.py` lines 51-55). -/
inductive AttendanceStatus
  | PRESENT
  | ABSENT
  | LATE
  | LEAVE
deriving DecidableEq, Repr

/-- `MarkedBy` text choices (`attendance/models.py` lines 58-61).
Note: the enum defines `TEACHER`, `STUDENT_GEO` and `ADMIN` only; there is
no `STUDENT` member. -/
inductive MarkedBy
  | TEACHER
  | STUDENT_GEO
  | ADMIN
deriving DecidableEq, Repr

/-- `Role` text choices (`accounts/models.py` lines 76-83). -/
inductive Role
  | ORG_OWNER
  | ORG_ADMIN
  | BRANCH_ADMIN
  | TEACHER
  | STAFF
  | STUDENT
  | PARENT
deriving DecidableEq, Repr

/-- `MembershipStatus` text choices (`accounts/models.py` lines 86-90). -/
inductive MembershipStatus
  | ACTIVE
  | PENDING
  | SUSPENDED
  | REJECTED
deriving DecidableEq, Repr

/-- `EnrollmentStatus` text choices (`academics/models.py` lines 123-126). -/
inductive EnrollmentStatus
  | ACTIVE
  | LEFT
  | PAUSED
deriving DecidableEq, Repr

/-- `BatchStatus` text choices (`academics/models.py` lines 11-13). -/
inductive BatchStatus
  | ACTIVE
  | ARCHIVED
deriving DecidableEq, Repr

/-- `orgs.Organisation` (the fields the engine touches). -/
structure Organisation where
  id : Nat
  publicId : Nat
deriving DecidableEq, Repr

/-- `orgs.Branch`: tenant sub-unit with the non-PostGIS geofence fields
`geo_center_lat` / `geo_center_lng` (nullable decimals) and `geo_radius_m`. -/
structure Branch where
  id : Nat
  organisation : Nat
  publicId : Nat
  geoCenterLat : Option ℚ
  geoCenterLng : Option ℚ
  geoRadiusM : Nat
deriving DecidableEq, Repr

/-- `accounts.OrgMembership` (`accounts/models.py` lines 93-113). -/
structure OrgMembership where
  id : Nat
  user : Nat
  organisation : Nat
  branch : Option Nat
  role : Role
  status : MembershipStatus
  createdAt : Nat
deriving DecidableEq, Repr

/-- `academics.Batch` (the fields the engine touches). -/
structure Batch where
  id : Nat
  organisation : Nat
  branch : Nat
  status : BatchStatus
deriving DecidableEq, Repr

/-- `academics.StudentProfile` (the fields the engine touches). -/
structure StudentProfile where
  id : Nat
  publicId : Nat
  user : Nat
  organisation : Nat
  branch : Nat
deriving DecidableEq, Repr

/-- `academics.BatchEnrollment` (`academics/models.py` lines 129-146). -/
structure BatchEnrollment where
  id : Nat
  batch : Nat
  student : Nat
  status : EnrollmentStatus
deriving DecidableEq, Repr

/-- `attendance.ClassSession` (`attendance/models.py` lines 21-48). -/
structure ClassSession where
  id : Nat
  organisation : Nat
  branch : Nat
  batch : Nat
  sessionDate : Nat
  startTime : Option Nat
  endTime : Option Nat
  status : SessionStatus
  allowStudentSelfMark : Bool
  maxSelfMarkDistanceM : Nat
deriving DecidableEq, Repr

/-- `attendance.StudentAttendance` (`attendance/models.py` lines 64-101),
using the non-PostGIS fallback fields `marked_lat` / `marked_lng`. -/
structure StudentAttendance where
  id : Nat
  organisation : Nat
  branch : Nat
  batch : Nat
  session : Nat
  student : Nat
  status : AttendanceStatus
  markedByType : MarkedBy
  markedByUser : Nat
  markedAt : Nat
  markedLat : Option ℚ
  markedLng : Option ℚ
  distanceFromBranchM : Option Nat
deriving DecidableEq, Repr

/-- The relational store: one list per table, plus fresh-id counters for
the rows the engine inserts. -/
structure DB where
  orgs : List Organisation
  branches : List Branch
  batches : List Batch
  students : List StudentProfile
  memberships : List OrgMembership
  enrollments : List BatchEnrollment
  sessions : List ClassSession
  attendance : List StudentAttendance
  nextAttendanceId : Nat
  nextSessionId : Nat
deriving DecidableEq, Repr

/-- `TenantContext` (`common/tenant.py` lines 11-15). -/
structure TenantContext where
  organisation : Organisation
  branch : Option Branch
  membership : OrgMembership
deriving DecidableEq, Repr

/-- Failure outcomes of the engine, abstracting DRF exceptions and error
responses: `permissionDenied` for `PermissionDenied`, `validationError`
(field, message) for `ValidationError` and 400 responses, `notFound` for a
`get_object` miss, and `attributeError` for an uncaught Python
`AttributeError` / `TypeError` (HTTP 500). -/
inductive ApiError
  | permissionDenied (msg : String)
  | validationError (field : String) (msg : String)
  | notFound
  | attributeError (msg : String)
deriving DecidableEq, Repr

instance {ε α : Type _} [DecidableEq ε] [DecidableEq α] : DecidableEq (Except ε α) :=
  fun a b =>
    match a, b with
    | .error e1, .error e2 =>
      if h : e1 = e2 then isTrue (by rw [h])
      else isFalse (by intro hc; cases hc; exact h rfl)
    | .error _, .ok _ => isFalse (by intro hc; cases hc)
    | .ok _, .error _ => isFalse (by intro hc; cases hc)
    | .ok v1, .ok v2 =>
      if h : v1 = v2 then isTrue (by rw [h])
      else isFalse (by intro hc; cases hc; exact h rfl)

/-- `OrgMembership.objects.filter(...).order_by("-created_at").first()`:
the first element (in table order) among those with maximal `createdAt`,
i.e. the head of a stable sort by `createdAt` descending. -/
def latestMembership (l : List OrgMembership) : Option OrgMembership :=
  l.foldl
    (fun acc m =>
      match acc with
      | none => some m
      | some b => if b.createdAt < m.createdAt then some m else some b)
    none

/-- `get_tenant_context` (`common/tenant.py` lines 18-57).  `user = none`
models an unauthenticated request; `orgSel` / `branchSel` are the `X-Org`
and `X-Branch` header values (public ids). -/
def resolveBranchSel (db : DB) (org : Organisation) (branchSel : Option Nat) :
    Except ApiError (Option Branch) :=
  match branchSel with
  | none => .ok none
  | some bpid =>
    match db.branches.find? (fun b => b.publicId == bpid && b.organisation == org.id) with
    | none => .error (.validationError "X-Branch" "Invalid branch for organisation.")
    | some b => .ok (some b)

def get_tenant_context (db : DB) (user : Option Nat) (orgSel : Option Nat)
    (branchSel : Option Nat) : Except ApiError TenantContext :=
  match user with
  | none => .error (.permissionDenied "Authentication required")
  | some u =>
    match orgSel with
    | none => .error (.validationError "X-Org" "Organisation header missing.")
    | some orgPid =>
      match db.orgs.find? (fun o => o.publicId == orgPid) with
      | none => .error (.validationError "X-Org" "Invalid organisation.")
      | some org =>
        match resolveBranchSel db org branchSel with
        | .error e => .error e
        | .ok branch? =>
          match latestMembership (db.memberships.filter
              (fun m => m.user == u && m.organisation == org.id &&
                m.status == MembershipStatus.ACTIVE)) with
          | none => .error (.permissionDenied "No active membership for this organisation.")
          | some mem => .ok ⟨org, branch?, mem⟩

/-- `IsTeacher.has_permission` (`common/permissions.py` lines 18-21). -/
def IsTeacher (ctx : TenantContext) : Bool :=
  ctx.membership.role == Role.TEACHER

/-- `IsStudent.has_permission` (`attendance/api/views.py` lines 53-57). -/
def IsStudent (ctx : TenantContext) : Bool :=
  ctx.membership.role == Role.STUDENT

/-- `IsBranchAdmin.has_permission` (`common/permissions.py` lines 12-15). -/
def IsBranchAdmin (ctx : TenantContext) : Bool :=
  ctx.membership.role == Role.ORG_OWNER || ctx.membership.role == Role.ORG_ADMIN ||
    ctx.membership.role == Role.BRANCH_ADMIN

/-- The operation classes of the engine and their DRF `permission_classes`
(`attendance/api/views.py`: `ClassSessionViewSet` uses `IsTeacher`;
`teacher_bulk_mark` uses `IsTeacher`; `student_geo_mark` uses `IsStudent`;
`correct` uses `IsTeacher`). -/
inductive OpClass
  | manageSessions
  | bulkMark
  | selfMark
  | correctRecord
deriving DecidableEq, Repr

/-- Which permission predicate guards each operation class
(`attendance/api/views.py` lines 74-76, 181-186, 247-252, 314-319). -/
def opPermitted : OpClass → TenantContext → Bool
  | .manageSessions, ctx => IsTeacher ctx
  | .bulkMark, ctx => IsTeacher ctx
  | .selfMark, ctx => IsStudent ctx
  | .correctRecord, ctx => IsTeacher ctx

/-- A Django filter `field=ctx.branch`: when the request carries no branch
selector `ctx.branch` is `None`, and `branch=None` matches no row of a
table whose `branch` column is NOT NULL. -/
def branchMatches (rowBranch : Nat) (ctxBranch : Option Branch) : Bool :=
  match ctxBranch with
  | some b => rowBranch == b.id
  | none => false

/-- Replace the first element satisfying `p` by `f` of it (a Django
single-object `save()` after a keyed lookup). -/
def updateFirst (p : α → Bool) (f : α → α) : List α → List α
  | [] => []
  | x :: xs => if p x then f x :: xs else x :: updateFirst p f xs

/-- The `defaults={...}` dict passed to
`StudentAttendance.objects.update_or_create` by the marking entry points.
Neither entry point puts `marked_lat`, `marked_lng` or
`distance_from_branch_m` in `defaults`, so those columns are absent here. -/
structure AttendanceDefaults where
  organisation : Nat
  branch : Nat
  batch : Nat
  status : AttendanceStatus
  markedByType : MarkedBy
  markedByUser : Nat
  markedAt : Nat
deriving DecidableEq, Repr

/-- Apply `defaults` to an existing row (the update arm of
`update_or_create`): only the columns in `defaults` change. -/
def applyDefaults (r : StudentAttendance) (d : AttendanceDefaults) : StudentAttendance :=
  { r with
    organisation := d.organisation
    branch := d.branch
    batch := d.batch
    status := d.status
    markedByType := d.markedByType
    markedByUser := d.markedByUser
    markedAt := d.markedAt }

/-- Does a row have the upsert key `(session, student)`? -/
def keyIs (sess stu : Nat) (r : StudentAttendance) : Bool :=
  r.session == sess && r.student == stu

/-- The row inserted by the create arm of `update_or_create`: the
`defaults` columns plus the key, with the nullable geo columns left
`None` (they are not in `defaults`). -/
def freshRow (nextId sess stu : Nat) (d : AttendanceDefaults) : StudentAttendance :=
  { id := nextId
    organisation := d.organisation
    branch := d.branch
    batch := d.batch
    session := sess
    student := stu
    status := d.status
    markedByType := d.markedByType
    markedByUser := d.markedByUser
    markedAt := d.markedAt
    markedLat := none
    markedLng := none
    distanceFromBranchM := none }

/-- `StudentAttendance.objects.update_or_create(session=, student=,
defaults=...)`: update the row with the key if present, else insert a new
row whose non-default columns take the model defaults (`marked_lat`,
`marked_lng`, `distance_from_branch_m` are nullable and stay `None`).
Returns the new table, the next fresh id and the `created` flag. -/
def update_or_create (store : List StudentAttendance) (nextId sess stu : Nat)
    (d : AttendanceDefaults) : List StudentAttendance × Nat × Bool :=
  match store.find? (keyIs sess stu) with
  | some _ => (updateFirst (keyIs sess stu) (fun r => applyDefaults r d) store, nextId, false)
  | none => (store ++ [freshRow nextId sess stu d], nextId + 1, true)

/-- One row of the `records` list of the teacher bulk-mark body
(`attendance/api/serializers.py` lines 37-40). -/
structure BulkRow where
  studentPublicId : Nat
  status : AttendanceStatus
deriving DecidableEq, Repr

/-- The `student_map` lookup of `teacher_bulk_mark`: resolve a
`student_public_id` to a `StudentProfile` of the current organisation and
branch (`attendance/api/views.py` lines 213-220). -/
def resolveStudent (db : DB) (ctx : TenantContext) (pid : Nat) : Option StudentProfile :=
  db.students.find?
    (fun st => st.organisation == ctx.organisation.id &&
      branchMatches st.branch ctx.branch && st.publicId == pid)

/-- The `defaults` dict of the teacher bulk-mark upsert
(`attendance/api/views.py` lines 230-238). -/
def bulkDefaults (ctx : TenantContext) (cb : Branch) (session : ClassSession)
    (st : AttendanceStatus) (user now : Nat) : AttendanceDefaults :=
  { organisation := ctx.organisation.id
    branch := cb.id
    batch := session.batch
    status := st
    markedByType := MarkedBy.TEACHER
    markedByUser := user
    markedAt := now }

/-- The marking loop of `teacher_bulk_mark` (`attendance/api/views.py`
lines 222-240): skip rows whose student does not resolve, upsert the rest
with provenance `TEACHER`, count the saved rows. -/
def bulkMarkRows (db : DB) (ctx : TenantContext) (user now : Nat) (session : ClassSession)
    (cb : Branch) :
    List BulkRow → List StudentAttendance → Nat → List StudentAttendance × Nat × Nat
  | [], store, nid => (store, nid, 0)
  | row :: rest, store, nid =>
    match resolveStudent db ctx row.studentPublicId with
    | none => bulkMarkRows db ctx user now session cb rest store nid
    | some st =>
      let step := update_or_create store nid session.id st.id
        (bulkDefaults ctx cb session row.status user now)
      let next := bulkMarkRows db ctx user now session cb rest step.1 step.2.1
      (next.1, next.2.1, next.2.2 + 1)

/-- `teacher_bulk_mark` (`attendance/api/views.py` lines 181-245): validate
the body (serializer `min_length=1` on `records`), resolve the session in
the caller's organisation and branch, run the marking loop, return the
`saved` count.  The session's `status` is never consulted. -/
def teacher_bulk_mark (db : DB) (ctx : TenantContext) (user now : Nat) (sessionId : Nat)
    (rows : List BulkRow) : Except ApiError (DB × Nat) :=
  if rows.isEmpty then
    .error (.validationError "records" "Ensure this field has at least 1 elements.")
  else
    match ctx.branch with
    | none => .error (.validationError "session_id" "Invalid session.")
    | some cb =>
      match db.sessions.find?
          (fun s => s.id == sessionId && s.organisation == ctx.organisation.id &&
            s.branch == cb.id) with
      | none => .error (.validationError "session_id" "Invalid session.")
      | some session =>
        let res := bulkMarkRows db ctx user now session cb rows db.attendance db.nextAttendanceId
        .ok ({ db with attendance := res.1, nextAttendanceId := res.2.1 }, res.2.2)

/-- Body of the student geo self-mark request; the serializer applies the
`status` field default `PRESENT` before validation, so the field is always
populated here (`attendance/api/serializers.py` lines 54-60). -/
structure GeoMarkInput where
  sessionId : Nat
  lat : ℚ
  lng : ℚ
  status : AttendanceStatus
deriving DecidableEq, Repr

/-- Output of a successful `StudentGeoMarkSerializer.validate`: the
`_session`, `_student` and `_distance_m` entries it adds to
`validated_data`. -/
structure GeoValidated where
  session : ClassSession
  student : StudentProfile
  distanceM : Nat
deriving DecidableEq, Repr

/-- `branch = session.batch.branch if hasattr(session.batch, "branch") else
ctx.branch` (`attendance/api/serializers.py` line 88): follow the batch
foreign key to its branch row; the `ctx.branch` fallback is reachable only
when the batch row itself is missing. -/
def geoBranch (db : DB) (ctx : TenantContext) (session : ClassSession) : Option Branch :=
  match db.batches.find? (fun bt => bt.id == session.batch) with
  | some bt => db.branches.find? (fun br => br.id == bt.branch)
  | none => ctx.branch

/-- `StudentGeoMarkSerializer.validate` (`attendance/api/serializers.py`
lines 62-114).  The checks, in source order: session exists in the
caller's organisation (no branch restriction); session status is `OPEN`;
`allow_student_self_mark` is set; the caller's user has a `StudentProfile`
in the organisation (no branch restriction); and only when the resolved
branch has a truthy `geo_center_lat` (non-null and non-zero — Python
truthiness of the nullable decimal), the distance to the submitted point
must not exceed `session.max_self_mark_distance_m`.  No enrollment is
consulted, and a missing geofence center skips the distance check with
`distance_m = 0`.  A truthy latitude with a null longitude makes
`float(branch.geo_center_lng)` raise (HTTP 500), modelled as
`attributeError`. -/
def geoDistanceCheck (session : ClassSession) (dist : ℚ → ℚ → ℚ → ℚ → Nat)
    (input : GeoMarkInput) (branch? : Option Branch) : Except ApiError Nat :=
  match branch? with
  | none => .ok 0
  | some br =>
    match br.geoCenterLat with
    | none => .ok 0
    | some lat1 =>
      if lat1 == 0 then .ok 0
      else
        match br.geoCenterLng with
        | none => .error (.attributeError "float argument must not be None")
        | some lng1 =>
          let d := dist lat1 lng1 input.lat input.lng
          if session.maxSelfMarkDistanceM < d then
            .error (.validationError "detail" "You are too far from the branch.")
          else .ok d

def geoMarkValidate (db : DB) (ctx : TenantContext) (user : Nat)
    (dist : ℚ → ℚ → ℚ → ℚ → Nat) (input : GeoMarkInput) :
    Except ApiError GeoValidated :=
  match db.sessions.find?
      (fun s => s.id == input.sessionId && s.organisation == ctx.organisation.id) with
  | none => .error (.validationError "session_id" "Session not found.")
  | some session =>
    if session.status != SessionStatus.OPEN then
      .error (.validationError "session_id" "Session is not open for self-marking.")
    else if !session.allowStudentSelfMark then
      .error (.validationError "session_id" "Self-marking is not enabled for this session.")
    else
      match db.students.find?
          (fun st => st.user == user && st.organisation == ctx.organisation.id) with
      | none => .error (.validationError "detail" "Student profile not found.")
      | some student =>
        match geoDistanceCheck session dist input (geoBranch db ctx session) with
        | .error e => .error e
        | .ok distanceM => .ok ⟨session, student, distanceM⟩

/-- `student_geo_mark` (`attendance/api/views.py` lines 247-296): run the
serializer validation, then build the `update_or_create` defaults.  The
defaults dict at line 284 reads `MarkedBy.STUDENT`, a member the
`MarkedBy` enum does not define (`attendance/models.py` lines 58-61), so
evaluating it raises `AttributeError` before any row is written and
`transaction.atomic` rolls the request back: the operation can never
reach the upsert. -/
def student_geo_mark (db : DB) (ctx : TenantContext) (user now : Nat)
    (dist : ℚ → ℚ → ℚ → ℚ → Nat) (input : GeoMarkInput) :
    Except ApiError (DB × AttendanceStatus × Nat) :=
  match geoMarkValidate db ctx user dist input with
  | .error e => .error e
  | .ok _ =>
    let _ := now
    .error (.attributeError "type object MarkedBy has no attribute STUDENT")

/-- Python `.strip().upper()` spelled out over the decoded character
list (the String library's own `trim`/`toUpper` are opaque to kernel
reduction; this is the same ASCII-level normalisation). -/
def pyStripUpper (s : String) : String :=
  String.mk
    (((s.data.dropWhile Char.isWhitespace).reverse.dropWhile
        Char.isWhitespace).reverse.map Char.toUpper)

/-- `(request.data.get("status") or "").strip().upper()` followed by the
membership test against `AttendanceStatus.values`
(`attendance/api/views.py` lines 349-361). -/
def parseAttendanceStatus (s : String) : Option AttendanceStatus :=
  let u := pyStripUpper s
  if u == "PRESENT" then some AttendanceStatus.PRESENT
  else if u == "ABSENT" then some AttendanceStatus.ABSENT
  else if u == "LATE" then some AttendanceStatus.LATE
  else if u == "LEAVE" then some AttendanceStatus.LEAVE
  else none

/-- Response body of the `correct` action (`attendance/api/views.py`
lines 381-394), restricted to the fields the claims mention. -/
structure CorrectResponse where
  id : Nat
  sessionId : Nat
  oldStatus : AttendanceStatus
  newStatus : AttendanceStatus
  correctedBy : Nat
  correctedAt : Nat
  note : String
deriving DecidableEq, Repr

/-- `self.get_object()` of `StudentAttendanceViewSet`: the record with the
given pk inside the tenant-scoped queryset (`common/mixins.py` lines
136-145 filter by `organisation=ctx.organisation, branch=ctx.branch`). -/
def findAttendanceRecord (db : DB) (ctx : TenantContext) (recordId : Nat) :
    Option StudentAttendance :=
  db.attendance.find?
    (fun r => r.id == recordId && r.organisation == ctx.organisation.id &&
      branchMatches r.branch ctx.branch)

/-- The `correct` action (`attendance/api/views.py` lines 314-394):
validate the requested status against `AttendanceStatus.values` (400 on
anything else, before the record is even fetched), fetch the record in
tenant scope, overwrite `status`, set `marked_by_type = MarkedBy.TEACHER`,
`marked_by_user = request.user`, `marked_at = now`, and answer with the
old and new status. -/
def correct (db : DB) (ctx : TenantContext) (user now : Nat) (recordId : Nat)
    (statusRaw note : String) : Except ApiError (DB × CorrectResponse) :=
  match parseAttendanceStatus statusRaw with
  | none => .error (.validationError "status" "Invalid status.")
  | some newStatus =>
    match findAttendanceRecord db ctx recordId with
    | none => .error .notFound
    | some att =>
      .ok ({ db with
          attendance := updateFirst
            (fun r => r.id == recordId && r.organisation == ctx.organisation.id &&
              branchMatches r.branch ctx.branch)
            (fun r => { r with
              status := newStatus
              markedByType := MarkedBy.TEACHER
              markedByUser := user
              markedAt := now })
            db.attendance },
        { id := att.id
          sessionId := att.session
          oldStatus := att.status
          newStatus := newStatus
          correctedBy := user
          correctedAt := now
          note := (note.trim.take 200) })

/-- Writable (non-tenant) fields of `ClassSessionSerializer`
(`attendance/api/serializers.py` lines 17-34); `perform_create` supplies
`organisation`, `branch` and `batch` itself. -/
structure SessionInput where
  batchId : Option Nat
  sessionDate : Nat
  startTime : Option Nat
  endTime : Option Nat
  status : SessionStatus
  allowStudentSelfMark : Bool
  maxSelfMarkDistanceM : Nat
deriving DecidableEq, Repr

/-- `ClassSessionViewSet.perform_create` (`attendance/api/views.py` lines
96-115): require `batch_id`, resolve the batch in the caller's
organisation and branch, insert the session with the tenant columns from
the context. -/
def session_create (db : DB) (ctx : TenantContext) (input : SessionInput) :
    Except ApiError (DB × ClassSession) :=
  match input.batchId with
  | none => .error (.validationError "batch_id" "This field is required.")
  | some bid =>
    match db.batches.find?
        (fun b => b.id == bid && b.organisation == ctx.organisation.id &&
          branchMatches b.branch ctx.branch) with
    | none => .error (.validationError "batch_id" "Invalid batch for this branch.")
    | some batch =>
      let s : ClassSession :=
        { id := db.nextSessionId
          organisation := ctx.organisation.id
          branch := batch.branch
          batch := batch.id
          sessionDate := input.sessionDate
          startTime := input.startTime
          endTime := input.endTime
          status := input.status
          allowStudentSelfMark := input.allowStudentSelfMark
          maxSelfMarkDistanceM := input.maxSelfMarkDistanceM }
      .ok ({ db with sessions := db.sessions ++ [s], nextSessionId := db.nextSessionId + 1 }, s)

/-- `self.get_object()` of `ClassSessionViewSet`: the session with the
given pk inside the tenant-scoped queryset. -/
def findSession (db : DB) (ctx : TenantContext) (sessionId : Nat) : Option ClassSession :=
  db.sessions.find?
    (fun s => s.id == sessionId && s.organisation == ctx.organisation.id &&
      branchMatches s.branch ctx.branch)

/-- Overwrite the status of one tenant-scoped session row; shared body of
the `open` and `close` actions (`attendance/api/views.py` lines 117-133). -/
def session_set_status (db : DB) (ctx : TenantContext) (sessionId : Nat)
    (newStatus : SessionStatus) : Except ApiError DB :=
  match findSession db ctx sessionId with
  | none => .error .notFound
  | some _ =>
    .ok { db with
      sessions := updateFirst
        (fun s => s.id == sessionId && s.organisation == ctx.organisation.id &&
          branchMatches s.branch ctx.branch)
        (fun s => { s with status := newStatus })
        db.sessions }

/-- `ClassSessionViewSet.get_queryset` (`attendance/api/views.py` lines
80-94): tenant scope plus the optional `batch_id`, `status`, `from_date`
and `to_date` query parameters (ordering left abstract). -/
def session_list (db : DB) (ctx : TenantContext) (batchF : Option Nat)
    (statusF : Option SessionStatus) (fromD toD : Option Nat) : List ClassSession :=
  db.sessions.filter (fun s =>
    s.organisation == ctx.organisation.id && branchMatches s.branch ctx.branch &&
    (match batchF with | some b => s.batch == b | none => true) &&
    (match statusF with | some st => s.status == st | none => true) &&
    (match fromD with | some d => d ≤ s.sessionDate | none => true) &&
    (match toD with | some d => s.sessionDate ≤ d | none => true))

/-- `StudentAttendanceViewSet` list queryset: tenant scope plus
`BatchFilterMixin` and `DateRangeFilterMixin` on `marked_at__date`
(`attendance/api/views.py` lines 136-164, `common/mixins.py`). -/
def attendance_list (db : DB) (ctx : TenantContext) (batchF : Option Nat)
    (fromD toD : Option Nat) : List StudentAttendance :=
  db.attendance.filter (fun r =>
    r.organisation == ctx.organisation.id && branchMatches r.branch ctx.branch &&
    (match batchF with | some b => r.batch == b | none => true) &&
    (match fromD with | some d => d ≤ r.markedAt | none => true) &&
    (match toD with | some d => r.markedAt ≤ d | none => true))

/-- One engine operation together with its request payload; one
constructor per write or read path of the attendance engine. -/
inductive EngineOp
  | sessionList (batchF : Option Nat) (statusF : Option SessionStatus) (fromD toD : Option Nat)
  | sessionCreate (input : SessionInput)
  | sessionOpen (sessionId : Nat)
  | sessionClose (sessionId : Nat)
  | attendanceList (batchF : Option Nat) (fromD toD : Option Nat)
  | bulkMark (user now sessionId : Nat) (rows : List BulkRow)
  | geoMark (user now : Nat) (input : GeoMarkInput)
  | correctRecord (user now recordId : Nat) (statusRaw note : String)

/-- Observable output of one engine operation. -/
inductive OpOutput
  | sessions (l : List ClassSession)
  | records (l : List StudentAttendance)
  | createdSession (s : ClassSession)
  | saved (n : Nat)
  | geoMarked (st : AttendanceStatus) (d : Nat)
  | corrected (r : CorrectResponse)
  | message
  | err (e : ApiError)
deriving DecidableEq, Repr

/-- Run one engine operation against the store under a resolved tenant
context; a failing operation leaves the store untouched (every mutating
view runs inside `transaction.atomic`). -/
def runOp (db : DB) (ctx : TenantContext) (dist : ℚ → ℚ → ℚ → ℚ → Nat) :
    EngineOp → DB × OpOutput
  | .sessionList batchF statusF fromD toD =>
    (db, .sessions (session_list db ctx batchF statusF fromD toD))
  | .sessionCreate input =>
    match session_create db ctx input with
    | .ok (db2, s) => (db2, .createdSession s)
    | .error e => (db, .err e)
  | .sessionOpen sessionId =>
    match session_set_status db ctx sessionId SessionStatus.OPEN with
    | .ok db2 => (db2, .message)
    | .error e => (db, .err e)
  | .sessionClose sessionId =>
    match session_set_status db ctx sessionId SessionStatus.CLOSED with
    | .ok db2 => (db2, .message)
    | .error e => (db, .err e)
  | .attendanceList batchF fromD toD =>
    (db, .records (attendance_list db ctx batchF fromD toD))
  | .bulkMark user now sessionId rows =>
    match teacher_bulk_mark db ctx user now sessionId rows with
    | .ok (db2, n) => (db2, .saved n)
    | .error e => (db, .err e)
  | .geoMark user now input =>
    match student_geo_mark db ctx user now dist input with
    | .ok (db2, st, d) => (db2, .geoMarked st d)
    | .error e => (db, .err e)
  | .correctRecord user now recordId statusRaw note =>
    match correct db ctx user now recordId statusRaw note with
    | .ok (db2, r) => (db2, .corrected r)
    | .error e => (db, .err e)

/-- Run a sequence of engine operations, threading the store. -/
def runOps (ctx : TenantContext) (dist : ℚ → ℚ → ℚ → ℚ → Nat) (db : DB) :
    List EngineOp → DB
  | [] => db
  | op :: rest => runOps ctx dist (runOp db ctx dist op).1 rest

/-- Round to the nearest integer, ties to even — the rounding of Python's
built-in `round` (here applied to exact rationals). -/
def roundHalfEven (q : ℚ) : ℤ :=
  let f := q.floor
  let r := q - f
  if r < 1 / 2 then f
  else if 1 / 2 < r then f + 1
  else if f % 2 = 0 then f else f + 1

/-- Python `round(x, 1)`. -/
def pyRound1 (q : ℚ) : ℚ := (roundHalfEven (10 * q) : ℚ) / 10

/-- The banding expression `"Good" if pct >= 80 else ("Warning" if pct >=
60 else "Critical")` (`views_reports.py` line 226). -/
def bandOf (pct : ℚ) : String :=
  if 80 ≤ pct then "Good" else if 60 ≤ pct then "Warning" else "Critical"

/-- One element of the `students` array of the per-student summary
response (`views_reports.py` lines 228-236), restricted to the fields the
claims mention. -/
structure StudentRow where
  studentId : Nat
  publicId : Nat
  present : Nat
  absent : Nat
  late : Nat
  attendancePct : ℚ
  rowStatus : String
deriving DecidableEq, Repr

/-- The `session__session_date` join used by the summary's attendance
filter: a record participates only if its session row exists (inner join)
and that session's date is inside the range. -/
def recordInRange (db : DB) (fromD toD : Nat) (r : StudentAttendance) : Bool :=
  match db.sessions.find? (fun s => s.id == r.session) with
  | some s => fromD ≤ s.sessionDate && s.sessionDate ≤ toD
  | none => false

/-- The attendance rows the summary aggregates for one batch and range
(`views_reports.py` lines 194-207). -/
def summaryRecords (db : DB) (batch : Batch) (fromD toD : Nat) : List StudentAttendance :=
  db.attendance.filter (fun r => r.batch == batch.id && recordInRange db fromD toD r)

/-- `total_sessions` of the summary (`views_reports.py` lines 188-192). -/
def totalSessionsInRange (db : DB) (batch : Batch) (fromD toD : Nat) : Nat :=
  (db.sessions.filter (fun s =>
    s.batch == batch.id && fromD ≤ s.sessionDate && s.sessionDate ≤ toD)).length

/-- The `enrolled_students` queryset (`views_reports.py` lines 211-219):
students holding an ACTIVE enrollment in the batch. -/
def enrolledStudents (db : DB) (batch : Batch) : List StudentProfile :=
  db.students.filter (fun st =>
    db.enrollments.any (fun e =>
      e.batch == batch.id && e.student == st.id && e.status == EnrollmentStatus.ACTIVE))

/-- Build one summary row for a student (`views_reports.py` lines
222-236): count the student's PRESENT/ABSENT/LATE rows among the filtered
records, divide presents by the session count (0 when no sessions), round
to one decimal and band. -/
def summaryRowFor (db : DB) (batch : Batch) (fromD toD : Nat) (st : StudentProfile) :
    StudentRow :=
  let recs := (summaryRecords db batch fromD toD).filter (fun r => r.student == st.id)
  let present := (recs.filter (fun r => r.status == AttendanceStatus.PRESENT)).length
  let absent := (recs.filter (fun r => r.status == AttendanceStatus.ABSENT)).length
  let late := (recs.filter (fun r => r.status == AttendanceStatus.LATE)).length
  let total := totalSessionsInRange db batch fromD toD
  let pct : ℚ := if 0 < total then pyRound1 ((present : ℚ) / (total : ℚ) * 100) else 0
  { studentId := st.id
    publicId := st.publicId
    present := present
    absent := absent
    late := late
    attendancePct := pct
    rowStatus := bandOf pct }

/-- Stable insertion into a list ascending by `attendance_pct`. -/
def insertByPct (x : StudentRow) : List StudentRow → List StudentRow
  | [] => [x]
  | y :: ys => if x.attendancePct ≤ y.attendancePct then x :: y :: ys else y :: insertByPct x ys

/-- `students_data.sort(key=lambda x: x["attendance_pct"])`
(`views_reports.py` line 238): sort ascending by percentage. -/
def sortByPct : List StudentRow → List StudentRow
  | [] => []
  | x :: xs => insertByPct x (sortByPct xs)

/-- Response of `StudentAttendanceSummaryView.get`, restricted to the
fields the claims mention. -/
structure SummaryResponse where
  batchId : Nat
  totalSessions : Nat
  students : List StudentRow
deriving DecidableEq, Repr

/-- `StudentAttendanceSummaryView.get` (`views_reports.py` lines 168-250):
resolve the batch in tenant scope, aggregate and sort.  The required
query-parameter checks are modelled by taking the parameters as values. -/
def student_summary (db : DB) (ctx : TenantContext) (fromD toD : Nat) (batchId : Nat) :
    Except ApiError SummaryResponse :=
  match db.batches.find?
      (fun b => b.id == batchId && b.organisation == ctx.organisation.id &&
        branchMatches b.branch ctx.branch) with
  | none => .error (.validationError "detail" "Invalid batch.")
  | some batch =>
    .ok { batchId := batch.id
          totalSessions := totalSessionsInRange db batch fromD toD
          students := sortByPct ((enrolledStudents db batch).map
            (summaryRowFor db batch fromD toD)) }

/-- The upsert key of a ledger row. -/
def keyOf (r : StudentAttendance) : Nat × Nat := (r.session, r.student)

/-- The keys of a ledger, in table order. -/
def keysOf (store : List StudentAttendance) : List (Nat × Nat) := store.map keyOf

/-- The central ledger invariant: at most one row per `(session, student)`
key (the `uq_session_student_attendance` unique constraint,
`attendance/models.py` line 94). -/
def KeyUnique (store : List StudentAttendance) : Prop := (keysOf store).Nodup

/-- The well-formedness assumption relating ledger rows to their session:
a row's `organisation` column agrees with its session's (both are set
from the same tenant context whenever the engine writes). -/
def RecordsMatchSessions (db : DB) : Prop :=
  ∀ r ∈ db.attendance, ∀ s ∈ db.sessions, s.id = r.session → r.organisation = s.organisation

instance (store : List StudentAttendance) : Decidable (KeyUnique store) := by
  unfold KeyUnique
  infer_instance

instance (db : DB) : Decidable (RecordsMatchSessions db) := by
  unfold RecordsMatchSessions
  infer_instance

theorem keyIs_iff (k s : Nat) (r : StudentAttendance) :
    keyIs k s r = true ↔ r.session = k ∧ r.student = s := by
  simp [keyIs]

theorem keyOf_applyDefaults (r : StudentAttendance) (d : AttendanceDefaults) :
    keyOf (applyDefaults r d) = keyOf r := rfl

theorem keyIs_applyDefaults (k s : Nat) (r : StudentAttendance) (d : AttendanceDefaults) :
    keyIs k s (applyDefaults r d) = keyIs k s r := rfl

theorem keyIs_freshRow (nid k s : Nat) (d : AttendanceDefaults) :
    keyIs k s (freshRow nid k s d) = true := by
  rw [keyIs_iff]
  exact ⟨rfl, rfl⟩

theorem updateFirst_mem {α : Type _} (p : α → Bool) (f : α → α) :
    ∀ l : List α, ∀ x ∈ updateFirst p f l, x ∈ l ∨ ∃ y, y ∈ l ∧ p y = true ∧ x = f y := by
  intro l
  induction l with
  | nil => intro x hx; simp [updateFirst] at hx
  | cons a as ih =>
    intro x hx
    by_cases hpa : p a = true
    · simp [updateFirst, hpa] at hx
      rcases hx with h | h
      · exact Or.inr ⟨a, List.mem_cons_self a as, hpa, h⟩
      · exact Or.inl (List.mem_cons_of_mem a h)
    · simp only [updateFirst, hpa, if_false] at hx
      rcases List.mem_cons.mp hx with h | h
      · exact Or.inl (h ▸ List.mem_cons_self a as)
      · rcases ih x h with h2 | ⟨y, hy, hpy, hxy⟩
        · exact Or.inl (List.mem_cons_of_mem a h2)
        · exact Or.inr ⟨y, List.mem_cons_of_mem a hy, hpy, hxy⟩

theorem mem_updateFirst_of_not_p {α : Type _} (p : α → Bool) (f : α → α) :
    ∀ l : List α, ∀ x ∈ l, p x = false → x ∈ updateFirst p f l := by
  intro l
  induction l with
  | nil => intro x hx; simp at hx
  | cons a as ih =>
    intro x hx hpx
    by_cases hpa : p a = true
    · simp only [updateFirst, hpa, if_true]
      rcases List.mem_cons.mp hx with h | h
      · rw [h] at hpx; rw [hpx] at hpa; exact absurd hpa (by simp)
      · exact List.mem_cons_of_mem _ h
    · simp only [updateFirst, hpa, if_false]
      rcases List.mem_cons.mp hx with h | h
      · exact h ▸ List.mem_cons_self a _
      · exact List.mem_cons_of_mem a (ih x h hpx)

theorem updateFirst_map_eq {α β : Type _} (p : α → Bool) (f : α → α) (g : α → β)
    (h : ∀ a, g (f a) = g a) : ∀ l : List α, (updateFirst p f l).map g = l.map g := by
  intro l
  induction l with
  | nil => rfl
  | cons a as ih =>
    by_cases hpa : p a = true
    · simp [updateFirst, hpa, h a]
    · simp [updateFirst, hpa, ih]

theorem updateFirst_length {α : Type _} (p : α → Bool) (f : α → α) :
    ∀ l : List α, (updateFirst p f l).length = l.length := by
  intro l
  induction l with
  | nil => rfl
  | cons a as ih =>
    by_cases hpa : p a = true
    · simp [updateFirst, hpa]
    · simp [updateFirst, hpa, ih]

theorem mem_f_updateFirst {α : Type _} (p : α → Bool) (f : α → α) :
    ∀ l : List α, ∀ a, l.find? p = some a → f a ∈ updateFirst p f l := by
  intro l
  induction l with
  | nil => intro a ha; simp at ha
  | cons x xs ih =>
    intro a ha
    by_cases hpx : p x = true
    · rw [List.find?_cons_of_pos _ hpx] at ha
      simp only [Option.some_inj] at ha
      subst ha
      simp [updateFirst, hpx]
    · rw [List.find?_cons_of_neg _ (by simp [hpx])] at ha
      simp only [updateFirst, hpx, if_false]
      exact List.mem_cons_of_mem x (ih a ha)

theorem find?_none_not_mem_keysOf (store : List StudentAttendance) (k s : Nat)
    (h : store.find? (keyIs k s) = none) : (k, s) ∉ keysOf store := by
  intro hmem
  rw [List.find?_eq_none] at h
  rcases List.mem_map.mp hmem with ⟨r, hr, hkey⟩
  refine h r hr ?_
  rw [keyIs_iff]
  have h1 : r.session = k := congrArg Prod.fst hkey
  have h2 : r.student = s := congrArg Prod.snd hkey
  exact ⟨h1, h2⟩

theorem filter_eq_nil_of_find?_none (store : List StudentAttendance) (k s : Nat)
    (h : store.find? (keyIs k s) = none) : store.filter (keyIs k s) = [] := by
  rw [List.filter_eq_nil_iff]
  rw [List.find?_eq_none] at h
  exact h

theorem filter_updateFirst_keyIs (k s : Nat) (d : AttendanceDefaults) :
    ∀ store : List StudentAttendance, KeyUnique store →
      ∀ r0, store.find? (keyIs k s) = some r0 →
        (updateFirst (keyIs k s) (fun r => applyDefaults r d) store).filter (keyIs k s)
          = [applyDefaults r0 d] := by
  intro store
  induction store with
  | nil => intro _ r0 h; simp at h
  | cons x xs ih =>
    intro hU r0 hfind
    have hU' : KeyUnique xs := by
      have := (List.nodup_cons.mp hU).2
      exact this
    by_cases hpx : keyIs k s x = true
    · rw [List.find?_cons_of_pos _ hpx] at hfind
      simp only [Option.some_inj] at hfind
      subst hfind
      simp only [updateFirst, hpx, if_true]
      rw [List.filter_cons_of_pos]
      · have hnil : xs.filter (keyIs k s) = [] := by
          rw [List.filter_eq_nil_iff]
          intro y hy hpy
          have hkx : keyOf x = (k, s) := by
            rcases (keyIs_iff k s x).mp hpx with ⟨h1, h2⟩
            simp [keyOf, h1, h2]
          have hky : keyOf y = (k, s) := by
            rcases (keyIs_iff k s y).mp hpy with ⟨h1, h2⟩
            simp [keyOf, h1, h2]
          have hnotin : keyOf x ∉ keysOf xs := (List.nodup_cons.mp hU).1
          refine hnotin ?_
          rw [hkx, ← hky]
          exact List.mem_map_of_mem keyOf hy
        rw [hnil]
      · rw [keyIs_applyDefaults]; exact hpx
    · rw [List.find?_cons_of_neg _ (by simp [hpx])] at hfind
      simp only [updateFirst]
      rw [if_neg hpx, List.filter_cons_of_neg (by simp [hpx])]
      exact ih hU' r0 hfind

/-- After one `update_or_create`, the ledger holds exactly one row at the
key, and that row carries the `defaults` columns. -/
theorem upsert_filter (store : List StudentAttendance) (nid k s : Nat)
    (d : AttendanceDefaults) (hU : KeyUnique store) :
    ∃ r, (update_or_create store nid k s d).1.filter (keyIs k s) = [r] ∧
      r.session = k ∧ r.student = s ∧ r.status = d.status ∧
      r.markedByType = d.markedByType ∧ r.markedByUser = d.markedByUser ∧
      r.markedAt = d.markedAt ∧ r.organisation = d.organisation ∧
      r.branch = d.branch ∧ r.batch = d.batch := by
  unfold update_or_create
  cases hfind : store.find? (keyIs k s) with
  | some r0 =>
    refine ⟨applyDefaults r0 d, ?_, ?_, ?_, rfl, rfl, rfl, rfl, rfl, rfl, rfl⟩
    · exact filter_updateFirst_keyIs k s d store hU r0 hfind
    · have := List.find?_some hfind
      exact ((keyIs_iff k s r0).mp this).1
    · have := List.find?_some hfind
      exact ((keyIs_iff k s r0).mp this).2
  | none =>
    refine ⟨freshRow nid k s d, ?_, rfl, rfl, rfl, rfl, rfl, rfl, rfl, rfl, rfl⟩
    rw [List.filter_append, filter_eq_nil_of_find?_none store k s hfind, List.nil_append,
      List.filter_cons_of_pos (keyIs_freshRow nid k s d), List.filter_nil]

theorem upsert_keysOf (store : List StudentAttendance) (nid k s : Nat)
    (d : AttendanceDefaults) :
    keysOf (update_or_create store nid k s d).1 = keysOf store ∨
      (keysOf (update_or_create store nid k s d).1 = keysOf store ++ [(k, s)] ∧
        store.find? (keyIs k s) = none) := by
  unfold update_or_create
  cases hfind : store.find? (keyIs k s) with
  | some r0 =>
    left
    exact updateFirst_map_eq _ _ keyOf (fun a => keyOf_applyDefaults a d) store
  | none =>
    right
    constructor
    · simp [keysOf, keyOf, freshRow]
    · rfl

/-- One upsert preserves the one-row-per-key invariant. -/
theorem upsert_KeyUnique (store : List StudentAttendance) (nid k s : Nat)
    (d : AttendanceDefaults) (hU : KeyUnique store) :
    KeyUnique (update_or_create store nid k s d).1 := by
  rcases upsert_keysOf store nid k s d with h | ⟨h, hfind⟩
  · unfold KeyUnique
    rw [h]
    exact hU
  · unfold KeyUnique
    rw [h]
    rw [List.nodup_append]
    exact ⟨hU, List.nodup_singleton _, by
      intro a ha hb
      simp only [List.mem_singleton] at hb
      subst hb
      exact find?_none_not_mem_keysOf store k s hfind ha⟩

/-- Rows at other keys are untouched by an upsert. -/
theorem upsert_mem_of_not_key (store : List StudentAttendance) (nid k s : Nat)
    (d : AttendanceDefaults) (r : StudentAttendance) (hr : r ∈ store)
    (hk : keyIs k s r = false) : r ∈ (update_or_create store nid k s d).1 := by
  unfold update_or_create
  cases hfind : store.find? (keyIs k s) with
  | some r0 => exact mem_updateFirst_of_not_p _ _ store r hr hk
  | none => exact List.mem_append_left _ hr

/-- Every row after an upsert is either an untouched old row or carries
the organisation of the `defaults`. -/
theorem upsert_mem_inv (store : List StudentAttendance) (nid k s : Nat)
    (d : AttendanceDefaults) (r : StudentAttendance)
    (hr : r ∈ (update_or_create store nid k s d).1) :
    r ∈ store ∨ r.organisation = d.organisation := by
  unfold update_or_create at hr
  cases hfind : store.find? (keyIs k s) with
  | some r0 =>
    rw [hfind] at hr
    rcases updateFirst_mem _ _ store r hr with h | ⟨y, _, _, hxy⟩
    · exact Or.inl h
    · right; rw [hxy]; rfl
  | none =>
    rw [hfind] at hr
    rcases List.mem_append.mp hr with h | h
    · exact Or.inl h
    · right
      simp only [List.mem_singleton] at h
      rw [h]
      exact rfl

/-- The geo self-mark endpoint can never return a success value: its
write path dereferences the undefined `MarkedBy.STUDENT` member. -/
theorem student_geo_mark_ne_ok (db : DB) (ctx : TenantContext) (user now : Nat)
    (dist : ℚ → ℚ → ℚ → ℚ → Nat) (input : GeoMarkInput)
    (x : DB × AttendanceStatus × Nat) :
    student_geo_mark db ctx user now dist input ≠ Except.ok x := by
  unfold student_geo_mark
  cases h : geoMarkValidate db ctx user dist input with
  | ok v => simp
  | error e => simp

theorem bulkMarkRows_KeyUnique (db : DB) (ctx : TenantContext) (user now : Nat)
    (session : ClassSession) (cb : Branch) :
    ∀ rows store nid, KeyUnique store →
      KeyUnique (bulkMarkRows db ctx user now session cb rows store nid).1 := by
  intro rows
  induction rows with
  | nil => intro store nid hU; exact hU
  | cons row rest ih =>
    intro store nid hU
    cases hres : resolveStudent db ctx row.studentPublicId with
    | none => simpa [bulkMarkRows, hres] using ih store nid hU
    | some st =>
      simp only [bulkMarkRows, hres]
      exact ih _ _ (upsert_KeyUnique store nid session.id st.id _ hU)

theorem correct_KeyUnique (db : DB) (ctx : TenantContext) (user now recordId : Nat)
    (statusRaw note : String) (db2 : DB) (resp : CorrectResponse)
    (h : correct db ctx user now recordId statusRaw note = Except.ok (db2, resp))
    (hU : KeyUnique db.attendance) : KeyUnique db2.attendance := by
  unfold correct at h
  cases hp : parseAttendanceStatus statusRaw with
  | none => rw [hp] at h; simp at h
  | some ns =>
    rw [hp] at h
    cases hf : findAttendanceRecord db ctx recordId with
    | none => rw [hf] at h; simp at h
    | some att =>
      rw [hf] at h
      simp only [Except.ok.injEq, Prod.mk.injEq] at h
      have hdb2 : db2.attendance = updateFirst
          (fun r => r.id == recordId && r.organisation == ctx.organisation.id &&
            branchMatches r.branch ctx.branch)
          (fun r => { r with
            status := ns
            markedByType := MarkedBy.TEACHER
            markedByUser := user
            markedAt := now })
          db.attendance := by
        rw [← h.1]
      unfold KeyUnique keysOf
      rw [hdb2]
      rw [updateFirst_map_eq
        (fun r => r.id == recordId && r.organisation == ctx.organisation.id &&
          branchMatches r.branch ctx.branch)
        (fun r => { r with
          status := ns
          markedByType := MarkedBy.TEACHER
          markedByUser := user
          markedAt := now })
        keyOf (fun a => rfl) db.attendance]
      exact hU

/-- Every engine operation preserves the one-row-per-key ledger
invariant. -/
theorem session_create_inv (db : DB) (ctx : TenantContext) (input : SessionInput)
    (p : DB × ClassSession) (h : session_create db ctx input = Except.ok p) :
    p.2.organisation = ctx.organisation.id ∧
    p.1.sessions = db.sessions ++ [p.2] ∧
    p.1.attendance = db.attendance ∧ p.1.batches = db.batches ∧
    p.1.branches = db.branches ∧ p.1.students = db.students ∧
    p.1.enrollments = db.enrollments ∧ p.1.orgs = db.orgs ∧
    p.1.memberships = db.memberships := by
  unfold session_create at h
  cases hbid : input.batchId with
  | none => simp [hbid] at h
  | some bid =>
    simp only [hbid] at h
    cases hb : db.batches.find? (fun b => b.id == bid &&
        b.organisation == ctx.organisation.id && branchMatches b.branch ctx.branch) with
    | none => simp [hb] at h
    | some batch =>
      simp only [hb, Except.ok.injEq] at h
      refine ⟨?_, ?_, ?_, ?_, ?_, ?_, ?_, ?_, ?_⟩ <;> rw [← h]

theorem session_set_status_inv (db : DB) (ctx : TenantContext) (sessionId : Nat)
    (newStatus : SessionStatus) (db2 : DB)
    (h : session_set_status db ctx sessionId newStatus = Except.ok db2) :
    db2.sessions = updateFirst
      (fun s => s.id == sessionId && s.organisation == ctx.organisation.id &&
        branchMatches s.branch ctx.branch)
      (fun s => { s with status := newStatus }) db.sessions ∧
    db2.attendance = db.attendance ∧ db2.batches = db.batches ∧
    db2.branches = db.branches ∧ db2.students = db.students ∧
    db2.enrollments = db.enrollments ∧ db2.orgs = db.orgs ∧
    db2.memberships = db.memberships := by
  unfold session_set_status at h
  cases hf : findSession db ctx sessionId with
  | none => simp [hf] at h
  | some s =>
    simp only [hf, Except.ok.injEq] at h
    refine ⟨?_, ?_, ?_, ?_, ?_, ?_, ?_, ?_⟩ <;> rw [← h]

theorem teacher_bulk_mark_inv (db : DB) (ctx : TenantContext) (user now : Nat)
    (sessionId : Nat) (rows : List BulkRow) (p : DB × Nat)
    (h : teacher_bulk_mark db ctx user now sessionId rows = Except.ok p) :
    ∃ session cb, ctx.branch = some cb ∧
      db.sessions.find? (fun s => s.id == sessionId &&
        s.organisation == ctx.organisation.id && s.branch == cb.id) = some session ∧
      p.1.attendance = (bulkMarkRows db ctx user now session cb rows db.attendance
        db.nextAttendanceId).1 ∧
      p.2 = (bulkMarkRows db ctx user now session cb rows db.attendance
        db.nextAttendanceId).2.2 ∧
      p.1.sessions = db.sessions ∧ p.1.batches = db.batches ∧
      p.1.students = db.students ∧ p.1.branches = db.branches ∧
      p.1.enrollments = db.enrollments ∧ p.1.orgs = db.orgs ∧
      p.1.memberships = db.memberships := by
  unfold teacher_bulk_mark at h
  by_cases hrows : rows.isEmpty
  · rw [if_pos hrows] at h; simp at h
  · rw [if_neg hrows] at h
    cases hcb : ctx.branch with
    | none => simp [hcb] at h
    | some cb =>
      simp only [hcb] at h
      cases hs : db.sessions.find? (fun s => s.id == sessionId &&
          s.organisation == ctx.organisation.id && s.branch == cb.id) with
      | none => simp [hs] at h
      | some session =>
        simp only [hs, Except.ok.injEq] at h
        refine ⟨session, cb, rfl, hs, ?_, ?_, ?_, ?_, ?_, ?_, ?_, ?_, ?_⟩ <;> rw [← h]

theorem correct_inv (db : DB) (ctx : TenantContext) (user now recordId : Nat)
    (statusRaw note : String) (p : DB × CorrectResponse)
    (h : correct db ctx user now recordId statusRaw note = Except.ok p) :
    ∃ ns att, parseAttendanceStatus statusRaw = some ns ∧
      findAttendanceRecord db ctx recordId = some att ∧
      p.1.attendance = updateFirst
        (fun r => r.id == recordId && r.organisation == ctx.organisation.id &&
          branchMatches r.branch ctx.branch)
        (fun r => { r with
          status := ns
          markedByType := MarkedBy.TEACHER
          markedByUser := user
          markedAt := now }) db.attendance ∧
      p.2 = { id := att.id, sessionId := att.session, oldStatus := att.status,
              newStatus := ns, correctedBy := user, correctedAt := now,
              note := note.trim.take 200 } ∧
      p.1.sessions = db.sessions ∧ p.1.batches = db.batches ∧
      p.1.branches = db.branches ∧ p.1.students = db.students ∧
      p.1.enrollments = db.enrollments ∧ p.1.orgs = db.orgs ∧
      p.1.memberships = db.memberships := by
  unfold correct at h
  cases hp : parseAttendanceStatus statusRaw with
  | none => simp [hp] at h
  | some ns =>
    simp only [hp] at h
    cases hf : findAttendanceRecord db ctx recordId with
    | none => simp [hf] at h
    | some att =>
      simp only [hf, Except.ok.injEq] at h
      refine ⟨ns, att, rfl, rfl, ?_, ?_, ?_, ?_, ?_, ?_, ?_, ?_, ?_⟩ <;> rw [← h]

/-- Every engine operation preserves the one-row-per-key ledger
invariant. -/
theorem runOp_KeyUnique (db : DB) (ctx : TenantContext)
    (dist : ℚ → ℚ → ℚ → ℚ → Nat) (op : EngineOp) (hU : KeyUnique db.attendance) :
    KeyUnique (runOp db ctx dist op).1.attendance := by
  cases op with
  | sessionList batchF statusF fromD toD => exact hU
  | sessionCreate input =>
    cases h : session_create db ctx input with
    | ok p =>
      simp only [runOp, h]
      rw [(session_create_inv db ctx input p h).2.2.1]
      exact hU
    | error e => simpa [runOp, h] using hU
  | sessionOpen sessionId =>
    cases h : session_set_status db ctx sessionId SessionStatus.OPEN with
    | ok db2 =>
      simp only [runOp, h]
      rw [(session_set_status_inv db ctx sessionId SessionStatus.OPEN db2 h).2.1]
      exact hU
    | error e => simpa [runOp, h] using hU
  | sessionClose sessionId =>
    cases h : session_set_status db ctx sessionId SessionStatus.CLOSED with
    | ok db2 =>
      simp only [runOp, h]
      rw [(session_set_status_inv db ctx sessionId SessionStatus.CLOSED db2 h).2.1]
      exact hU
    | error e => simpa [runOp, h] using hU
  | attendanceList batchF fromD toD => exact hU
  | bulkMark user now sessionId rows =>
    cases h : teacher_bulk_mark db ctx user now sessionId rows with
    | ok p =>
      simp only [runOp, h]
      rcases teacher_bulk_mark_inv db ctx user now sessionId rows p h with
        ⟨session, cb, _, _, hatt, _⟩
      rw [hatt]
      exact bulkMarkRows_KeyUnique db ctx user now session cb rows db.attendance
        db.nextAttendanceId hU
    | error e => simpa [runOp, h] using hU
  | geoMark user now input =>
    cases h : student_geo_mark db ctx user now dist input with
    | ok p => exact absurd h (student_geo_mark_ne_ok db ctx user now dist input p)
    | error e => simpa [runOp, h] using hU
  | correctRecord user now recordId statusRaw note =>
    cases h : correct db ctx user now recordId statusRaw note with
    | ok p =>
      simp only [runOp, h]
      exact correct_KeyUnique db ctx user now recordId statusRaw note p.1 p.2 (by
        rw [← h]) hU
    | error e => simpa [runOp, h] using hU

theorem runOps_KeyUnique (ctx : TenantContext) (dist : ℚ → ℚ → ℚ → ℚ → Nat) :
    ∀ ops db, KeyUnique db.attendance → KeyUnique (runOps ctx dist db ops).attendance := by
  intro ops
  induction ops with
  | nil => intro db hU; exact hU
  | cons op rest ih =>
    intro db hU
    exact ih _ (runOp_KeyUnique db ctx dist op hU)

theorem bulkMarkRows_org (db : DB) (ctx : TenantContext) (user now : Nat)
    (session : ClassSession) (cb : Branch) :
    ∀ rows store nid,
      (∀ r ∈ store, r.session = session.id → r.organisation = ctx.organisation.id) →
      (∀ r ∈ (bulkMarkRows db ctx user now session cb rows store nid).1,
          r.session = session.id → r.organisation = ctx.organisation.id) ∧
      (∀ r ∈ store, r.organisation ≠ ctx.organisation.id →
          r ∈ (bulkMarkRows db ctx user now session cb rows store nid).1) ∧
      (∀ r ∈ (bulkMarkRows db ctx user now session cb rows store nid).1,
          r ∈ store ∨ r.organisation = ctx.organisation.id) := by
  intro rows
  induction rows with
  | nil =>
    intro store nid hinv
    refine ⟨hinv, fun r hr _ => hr, fun r hr => Or.inl hr⟩
  | cons row rest ih =>
    intro store nid hinv
    cases hres : resolveStudent db ctx row.studentPublicId with
    | none =>
      simp only [bulkMarkRows, hres]
      exact ih store nid hinv
    | some st =>
      simp only [bulkMarkRows, hres]
      set d : AttendanceDefaults :=
        { organisation := ctx.organisation.id
          branch := cb.id
          batch := session.batch
          status := row.status
          markedByType := MarkedBy.TEACHER
          markedByUser := user
          markedAt := now } with hd
      have hinv2 : ∀ r ∈ (update_or_create store nid session.id st.id d).1,
          r.session = session.id → r.organisation = ctx.organisation.id := by
        intro r hr hsess
        rcases upsert_mem_inv store nid session.id st.id d r hr with hold | hnew
        · exact hinv r hold hsess
        · exact hnew
      rcases ih (update_or_create store nid session.id st.id d).1
        (update_or_create store nid session.id st.id d).2.1 hinv2 with ⟨c1, c2, c3⟩
      refine ⟨c1, ?_, ?_⟩
      · intro r hr horg
        have hkey : keyIs session.id st.id r = false := by
          rw [Bool.eq_false_iff]
          intro hk
          exact horg (hinv r hr ((keyIs_iff _ _ r).mp hk).1)
        exact c2 r (upsert_mem_of_not_key store nid session.id st.id d r hr hkey) horg
      · intro r hr
        rcases c3 r hr with hmid | horg
        · rcases upsert_mem_inv store nid session.id st.id d r hmid with hold | hnew
          · exact Or.inl hold
          · exact Or.inr hnew
        · exact Or.inr horg

theorem updateFirst_org {α : Type _} (g : α → Nat) (A : Nat) (p : α → Bool)
    (hp : ∀ x, p x = true → g x = A) (f : α → α)
    (hf : ∀ x, g (f x) = g x) (l : List α) :
    (∀ x ∈ l, g x ≠ A → x ∈ updateFirst p f l) ∧
    (∀ x ∈ updateFirst p f l, x ∈ l ∨ g x = A) := by
  constructor
  · intro x hx horg
    refine mem_updateFirst_of_not_p p f l x hx ?_
    rw [Bool.eq_false_iff]
    intro hpx
    exact horg (hp x hpx)
  · intro x hx
    rcases updateFirst_mem p f l x hx with h | ⟨y, hy, hpy, hxy⟩
    · exact Or.inl h
    · right
      rw [hxy, hf y]
      exact hp y hpy

theorem session_list_org (db : DB) (ctx : TenantContext) (batchF : Option Nat)
    (statusF : Option SessionStatus) (fromD toD : Option Nat) :
    ∀ s ∈ session_list db ctx batchF statusF fromD toD,
      s.organisation = ctx.organisation.id := by
  intro s hs
  have h := (List.mem_filter.mp hs).2
  simp only [Bool.and_eq_true, beq_iff_eq] at h
  tauto

theorem attendance_list_org (db : DB) (ctx : TenantContext) (batchF : Option Nat)
    (fromD toD : Option Nat) :
    ∀ r ∈ attendance_list db ctx batchF fromD toD,
      r.organisation = ctx.organisation.id := by
  intro r hr
  have h := (List.mem_filter.mp hr).2
  simp only [Bool.and_eq_true, beq_iff_eq] at h
  tauto

/-- C3.  Tenant isolation: whatever the request supplies, an engine
operation run under the tenant context of organisation A leaves every
session and attendance row of any other organisation untouched, never
inserts or rewrites a row into another organisation, never mutates the
batch (or any other) table at all, and every session, attendance record
or created session it returns belongs to A.  The hypothesis is the
store well-formedness `RecordsMatchSessions` (rows written by the engine
always carry their session's organisation). -/
theorem C3_tenant_isolation (db : DB) (ctx : TenantContext)
    (dist : ℚ → ℚ → ℚ → ℚ → Nat) (op : EngineOp)
    (hWF : RecordsMatchSessions db) :
    (∀ s ∈ db.sessions, s.organisation ≠ ctx.organisation.id →
        s ∈ (runOp db ctx dist op).1.sessions) ∧
    (∀ s ∈ (runOp db ctx dist op).1.sessions,
        s ∈ db.sessions ∨ s.organisation = ctx.organisation.id) ∧
    (∀ r ∈ db.attendance, r.organisation ≠ ctx.organisation.id →
        r ∈ (runOp db ctx dist op).1.attendance) ∧
    (∀ r ∈ (runOp db ctx dist op).1.attendance,
        r ∈ db.attendance ∨ r.organisation = ctx.organisation.id) ∧
    (runOp db ctx dist op).1.batches = db.batches ∧
    (runOp db ctx dist op).1.branches = db.branches ∧
    (runOp db ctx dist op).1.students = db.students ∧
    (runOp db ctx dist op).1.enrollments = db.enrollments ∧
    (runOp db ctx dist op).1.orgs = db.orgs ∧
    (runOp db ctx dist op).1.memberships = db.memberships ∧
    (∀ l, (runOp db ctx dist op).2 = OpOutput.sessions l →
        ∀ s ∈ l, s.organisation = ctx.organisation.id) ∧
    (∀ l, (runOp db ctx dist op).2 = OpOutput.records l →
        ∀ r ∈ l, r.organisation = ctx.organisation.id) ∧
    (∀ s, (runOp db ctx dist op).2 = OpOutput.createdSession s →
        s.organisation = ctx.organisation.id) := by
  cases op with
  | sessionList batchF statusF fromD toD =>
    refine ⟨fun s hs _ => hs, fun s hs => Or.inl hs, fun r hr _ => hr,
      fun r hr => Or.inl hr, rfl, rfl, rfl, rfl, rfl, rfl, ?_, ?_, ?_⟩
    · intro l hl
      simp only [runOp, OpOutput.sessions.injEq] at hl
      rw [← hl]
      exact session_list_org db ctx batchF statusF fromD toD
    · intro l hl; simp [runOp] at hl
    · intro s hs; simp [runOp] at hs
  | sessionCreate input =>
    cases h : session_create db ctx input with
    | ok p =>
      rcases session_create_inv db ctx input p h with
        ⟨horg, hsess, hatt, hb, hbr, hst, hen, ho, hm⟩
      simp only [runOp, h]
      refine ⟨?_, ?_, ?_, ?_, hb, hbr, hst, hen, ho, hm, ?_, ?_, ?_⟩
      · intro s hs _
        rw [hsess]
        exact List.mem_append_left _ hs
      · intro s hs
        rw [hsess] at hs
        rcases List.mem_append.mp hs with h1 | h1
        · exact Or.inl h1
        · simp only [List.mem_singleton] at h1
          exact Or.inr (h1 ▸ horg)
      · intro r hr _
        rw [hatt]; exact hr
      · intro r hr
        rw [hatt] at hr; exact Or.inl hr
      · intro l hl; simp at hl
      · intro l hl; simp at hl
      · intro s hs
        simp only [OpOutput.createdSession.injEq] at hs
        exact hs ▸ horg
    | error e =>
      simp only [runOp, h]
      refine ⟨?_, ?_, ?_, ?_, ?_, ?_, ?_, ?_, ?_, ?_, ?_, ?_, ?_⟩
      all_goals
        first
        | trivial
        | exact fun s hs _ => hs
        | exact fun s hs => Or.inl hs
        | (intro x hx; simp at hx)
  | sessionOpen sessionId =>
    cases h : session_set_status db ctx sessionId SessionStatus.OPEN with
    | ok db2 =>
      rcases session_set_status_inv db ctx sessionId SessionStatus.OPEN db2 h with
        ⟨hsess, hatt, hb, hbr, hst, hen, ho, hm⟩
      simp only [runOp, h]
      have huf := updateFirst_org (fun s : ClassSession => s.organisation)
        ctx.organisation.id
        (fun s => s.id == sessionId && s.organisation == ctx.organisation.id &&
          branchMatches s.branch ctx.branch)
        (by
          intro s hps
          simp only [Bool.and_eq_true, beq_iff_eq] at hps
          tauto)
        (fun s => { s with status := SessionStatus.OPEN })
        (fun s => rfl) db.sessions
      refine ⟨?_, ?_, ?_, ?_, hb, hbr, hst, hen, ho, hm, ?_, ?_, ?_⟩
      · intro s hs horg
        rw [hsess]
        exact huf.1 s hs horg
      · intro s hs
        rw [hsess] at hs
        exact huf.2 s hs
      · intro r hr _
        rw [hatt]; exact hr
      · intro r hr
        rw [hatt] at hr; exact Or.inl hr
      · intro l hl; simp at hl
      · intro l hl; simp at hl
      · intro s hs; simp at hs
    | error e =>
      simp only [runOp, h]
      refine ⟨?_, ?_, ?_, ?_, ?_, ?_, ?_, ?_, ?_, ?_, ?_, ?_, ?_⟩
      all_goals
        first
        | trivial
        | exact fun s hs _ => hs
        | exact fun s hs => Or.inl hs
        | (intro x hx; simp at hx)
  | sessionClose sessionId =>
    cases h : session_set_status db ctx sessionId SessionStatus.CLOSED with
    | ok db2 =>
      rcases session_set_status_inv db ctx sessionId SessionStatus.CLOSED db2 h with
        ⟨hsess, hatt, hb, hbr, hst, hen, ho, hm⟩
      simp only [runOp, h]
      have huf := updateFirst_org (fun s : ClassSession => s.organisation)
        ctx.organisation.id
        (fun s => s.id == sessionId && s.organisation == ctx.organisation.id &&
          branchMatches s.branch ctx.branch)
        (by
          intro s hps
          simp only [Bool.and_eq_true, beq_iff_eq] at hps
          tauto)
        (fun s => { s with status := SessionStatus.CLOSED })
        (fun s => rfl) db.sessions
      refine ⟨?_, ?_, ?_, ?_, hb, hbr, hst, hen, ho, hm, ?_, ?_, ?_⟩
      · intro s hs horg
        rw [hsess]
        exact huf.1 s hs horg
      · intro s hs
        rw [hsess] at hs
        exact huf.2 s hs
      · intro r hr _
        rw [hatt]; exact hr
      · intro r hr
        rw [hatt] at hr; exact Or.inl hr
      · intro l hl; simp at hl
      · intro l hl; simp at hl
      · intro s hs; simp at hs
    | error e =>
      simp only [runOp, h]
      refine ⟨?_, ?_, ?_, ?_, ?_, ?_, ?_, ?_, ?_, ?_, ?_, ?_, ?_⟩
      all_goals
        first
        | trivial
        | exact fun s hs _ => hs
        | exact fun s hs => Or.inl hs
        | (intro x hx; simp at hx)
  | attendanceList batchF fromD toD =>
    refine ⟨fun s hs _ => hs, fun s hs => Or.inl hs, fun r hr _ => hr,
      fun r hr => Or.inl hr, rfl, rfl, rfl, rfl, rfl, rfl, ?_, ?_, ?_⟩
    · intro l hl; simp [runOp] at hl
    · intro l hl
      simp only [runOp, OpOutput.records.injEq] at hl
      rw [← hl]
      exact attendance_list_org db ctx batchF fromD toD
    · intro s hs; simp [runOp] at hs
  | bulkMark user now sessionId rows =>
    cases h : teacher_bulk_mark db ctx user now sessionId rows with
    | ok p =>
      rcases teacher_bulk_mark_inv db ctx user now sessionId rows p h with
        ⟨session, cb, hcb, hfind, hatt, hsaved, hsess, hb, hst, hbr, hen, ho, hm⟩
      simp only [runOp, h]
      have hsessionOrg : session.organisation = ctx.organisation.id := by
        have := List.find?_some hfind
        simp only [Bool.and_eq_true, beq_iff_eq] at this
        tauto
      have hsessionMem : session ∈ db.sessions := List.mem_of_find?_eq_some hfind
      have hinv : ∀ r ∈ db.attendance, r.session = session.id →
          r.organisation = ctx.organisation.id := by
        intro r hr hrs
        rw [hWF r hr session hsessionMem hrs.symm]
        exact hsessionOrg
      rcases bulkMarkRows_org db ctx user now session cb rows db.attendance
        db.nextAttendanceId hinv with ⟨_, c2, c3⟩
      refine ⟨?_, ?_, ?_, ?_, hb, hbr, hst, hen, ho, hm, ?_, ?_, ?_⟩
      · intro s hs _
        rw [hsess]; exact hs
      · intro s hs
        rw [hsess] at hs; exact Or.inl hs
      · intro r hr horg
        rw [hatt]
        exact c2 r hr horg
      · intro r hr
        rw [hatt] at hr
        exact c3 r hr
      · intro l hl; simp at hl
      · intro l hl; simp at hl
      · intro s hs; simp at hs
    | error e =>
      simp only [runOp, h]
      refine ⟨?_, ?_, ?_, ?_, ?_, ?_, ?_, ?_, ?_, ?_, ?_, ?_, ?_⟩
      all_goals
        first
        | trivial
        | exact fun s hs _ => hs
        | exact fun s hs => Or.inl hs
        | (intro x hx; simp at hx)
  | geoMark user now input =>
    cases h : student_geo_mark db ctx user now dist input with
    | ok p => exact absurd h (student_geo_mark_ne_ok db ctx user now dist input p)
    | error e =>
      simp only [runOp, h]
      refine ⟨?_, ?_, ?_, ?_, ?_, ?_, ?_, ?_, ?_, ?_, ?_, ?_, ?_⟩
      all_goals
        first
        | trivial
        | exact fun s hs _ => hs
        | exact fun s hs => Or.inl hs
        | (intro x hx; simp at hx)
  | correctRecord user now recordId statusRaw note =>
    cases h : correct db ctx user now recordId statusRaw note with
    | ok p =>
      rcases correct_inv db ctx user now recordId statusRaw note p h with
        ⟨ns, att, hp, hf, hatt, hresp, hsess, hb, hbr, hst, hen, ho, hm⟩
      simp only [runOp, h]
      have huf := updateFirst_org (fun r : StudentAttendance => r.organisation)
        ctx.organisation.id
        (fun r => r.id == recordId && r.organisation == ctx.organisation.id &&
          branchMatches r.branch ctx.branch)
        (by
          intro r hpr
          simp only [Bool.and_eq_true, beq_iff_eq] at hpr
          tauto)
        (fun r => { r with
          status := ns
          markedByType := MarkedBy.TEACHER
          markedByUser := user
          markedAt := now })
        (fun r => rfl) db.attendance
      refine ⟨?_, ?_, ?_, ?_, hb, hbr, hst, hen, ho, hm, ?_, ?_, ?_⟩
      · intro s hs _
        rw [hsess]; exact hs
      · intro s hs
        rw [hsess] at hs; exact Or.inl hs
      · intro r hr horg
        rw [hatt]
        exact huf.1 r hr horg
      · intro r hr
        rw [hatt] at hr
        exact huf.2 r hr
      · intro l hl; simp at hl
      · intro l hl; simp at hl
      · intro s hs; simp at hs
    | error e =>
      simp only [runOp, h]
      refine ⟨?_, ?_, ?_, ?_, ?_, ?_, ?_, ?_, ?_, ?_, ?_, ?_, ?_⟩
      all_goals
        first
        | trivial
        | exact fun s hs _ => hs
        | exact fun s hs => Or.inl hs
        | (intro x hx; simp at hx)

/-- C1.  One AttendanceRecord per (session, student): any sequence of
engine operations preserves the one-row-per-key ledger invariant, and
upserting the same key twice (the shared write primitive of the marking
entry points) leaves exactly one row at the key, carrying the second
write's status, provenance, acting user and timestamp. -/
theorem C1_upsert_single_row (db : DB) (ctx : TenantContext)
    (dist : ℚ → ℚ → ℚ → ℚ → Nat) (ops : List EngineOp)
    (hU : KeyUnique db.attendance) :
    KeyUnique (runOps ctx dist db ops).attendance ∧
    (∀ store nid k s (d1 d2 : AttendanceDefaults), KeyUnique store →
      ∃ r, (update_or_create (update_or_create store nid k s d1).1
              (update_or_create store nid k s d1).2.1 k s d2).1.filter (keyIs k s) = [r] ∧
        r.session = k ∧ r.student = s ∧ r.status = d2.status ∧
        r.markedByType = d2.markedByType ∧ r.markedByUser = d2.markedByUser ∧
        r.markedAt = d2.markedAt) := by
  constructor
  · exact runOps_KeyUnique ctx dist ops db hU
  · intro store nid k s d1 d2 hU'
    rcases upsert_filter (update_or_create store nid k s d1).1
        (update_or_create store nid k s d1).2.1 k s d2
        (upsert_KeyUnique store nid k s d1 hU') with
      ⟨r, hfil, hsess, hstu, hst, hmt, hmu, hma, _, _, _⟩
    exact ⟨r, hfil, hsess, hstu, hst, hmt, hmu, hma⟩

/-- Concrete witness environment: one organisation with one branch, a
teacher and three students, one closed session with one existing
attendance row. -/
def orgW : Organisation := { id := 1, publicId := 101 }

def branchW : Branch :=
  { id := 1, organisation := 1, publicId := 201,
    geoCenterLat := some 28, geoCenterLng := some 77, geoRadiusM := 50 }

def memTeacherW : OrgMembership :=
  { id := 1, user := 9, organisation := 1, branch := some 1,
    role := Role.TEACHER, status := MembershipStatus.ACTIVE, createdAt := 5 }

def ctxW : TenantContext :=
  { organisation := orgW, branch := some branchW, membership := memTeacherW }

def batchW : Batch := { id := 1, organisation := 1, branch := 1, status := BatchStatus.ACTIVE }

def studentW (i : Nat) : StudentProfile :=
  { id := i, publicId := 300 + i, user := 4 + i, organisation := 1, branch := 1 }

def sessionW : ClassSession :=
  { id := 1, organisation := 1, branch := 1, batch := 1, sessionDate := 10,
    startTime := none, endTime := none, status := SessionStatus.CLOSED,
    allowStudentSelfMark := true, maxSelfMarkDistanceM := 50 }

def recordW : StudentAttendance :=
  { id := 1, organisation := 1, branch := 1, batch := 1, session := 1, student := 1,
    status := AttendanceStatus.ABSENT, markedByType := MarkedBy.TEACHER,
    markedByUser := 9, markedAt := 50, markedLat := none, markedLng := none,
    distanceFromBranchM := none }

def dbW : DB :=
  { orgs := [orgW]
    branches := [branchW]
    batches := [batchW]
    students := [studentW 1, studentW 2, studentW 3]
    memberships := [memTeacherW]
    enrollments := [{ id := 1, batch := 1, student := 1, status := EnrollmentStatus.ACTIVE }]
    sessions := [sessionW]
    attendance := [recordW]
    nextAttendanceId := 2
    nextSessionId := 2 }

def distW : ℚ → ℚ → ℚ → ℚ → Nat := fun _ _ _ _ => 10

def opsW : List EngineOp :=
  [EngineOp.bulkMark 9 100 1 [⟨301, AttendanceStatus.PRESENT⟩, ⟨302, AttendanceStatus.LATE⟩],
   EngineOp.geoMark 5 101 { sessionId := 1, lat := 28, lng := 77,
                            status := AttendanceStatus.PRESENT },
   EngineOp.correctRecord 9 102 1 "LEAVE" "note"]

theorem C1_upsert_single_row_witness :
    KeyUnique dbW.attendance ∧ KeyUnique (runOps ctxW distW dbW opsW).attendance :=
  ⟨by decide, (C1_upsert_single_row dbW ctxW distW opsW (by decide)).1⟩

theorem C3_tenant_isolation_witness :
    RecordsMatchSessions dbW ∧
    (runOp dbW ctxW distW (EngineOp.bulkMark 9 100 1
      [⟨301, AttendanceStatus.PRESENT⟩])).1.batches = dbW.batches :=
  ⟨by decide,
    (C3_tenant_isolation dbW ctxW distW
      (EngineOp.bulkMark 9 100 1 [⟨301, AttendanceStatus.PRESENT⟩])
      (by decide)).2.2.2.2.1⟩

/-- The spec's words for the role ladder of §4.2: manage-sessions,
bulk-mark and correct-record are said to be allowed for "Teacher or
higher", i.e. Teacher, Branch Admin, Org Admin or Org Owner.  Stated
separately from the code's predicates so the two can be compared. -/
def specTeacherOrHigher (r : Role) : Bool :=
  r == Role.ORG_OWNER || r == Role.ORG_ADMIN || r == Role.BRANCH_ADMIN || r == Role.TEACHER

def ctxOrgAdminW : TenantContext :=
  { organisation := orgW, branch := some branchW,
    membership := { id := 2, user := 8, organisation := 1, branch := some 1,
                    role := Role.ORG_ADMIN, status := MembershipStatus.ACTIVE,
                    createdAt := 4 } }

/-- C7 counterexample: an ORG_ADMIN is "Teacher or higher" in the spec's
ladder, yet the engine's permission predicate denies every
teacher-guarded operation class to such a caller: `IsTeacher` matches the
role `TEACHER` exactly (`common/permissions.py` lines 18-21). -/
theorem C7_counterexample :
    specTeacherOrHigher Role.ORG_ADMIN = true ∧
    opPermitted OpClass.manageSessions ctxOrgAdminW = false ∧
    opPermitted OpClass.bulkMark ctxOrgAdminW = false ∧
    opPermitted OpClass.correctRecord ctxOrgAdminW = false := by
  decide

/-- C7 (amended): manage-sessions, bulk-mark and correct-record are
allowed exactly when the resolved membership role is TEACHER (roles above
Teacher are denied as well), and self-mark is allowed exactly when the
role is STUDENT. -/
theorem C7_role_authorization (c : OpClass) (ctx : TenantContext) :
    opPermitted c ctx = true ↔
      (match c with
       | OpClass.selfMark => ctx.membership.role = Role.STUDENT
       | _ => ctx.membership.role = Role.TEACHER) := by
  cases c <;> simp [opPermitted, IsTeacher, IsStudent]

/-- The row produced by the `correct` action's in-place save. -/
def correctedRow (att : StudentAttendance) (ns : AttendanceStatus) (user now : Nat) :
    StudentAttendance :=
  { att with
    status := ns
    markedByType := MarkedBy.TEACHER
    markedByUser := user
    markedAt := now }

theorem updateFirst_mem_find? {α : Type _} (p : α → Bool) (f : α → α) :
    ∀ (l : List α) (a : α), l.find? p = some a →
      ∀ x ∈ updateFirst p f l, x ∈ l ∨ x = f a := by
  intro l
  induction l with
  | nil => intro a ha; simp at ha
  | cons y ys ih =>
    intro a ha x hx
    by_cases hpy : p y = true
    · rw [List.find?_cons_of_pos _ hpy] at ha
      simp only [Option.some_inj] at ha
      subst ha
      simp only [updateFirst, hpy, if_true] at hx
      rcases List.mem_cons.mp hx with h | h
      · exact Or.inr h
      · exact Or.inl (List.mem_cons_of_mem y h)
    · rw [List.find?_cons_of_neg _ (by simp [hpy])] at ha
      simp only [updateFirst] at hx
      rw [if_neg hpy] at hx
      rcases List.mem_cons.mp hx with h | h
      · exact Or.inl (h ▸ List.mem_cons_self y ys)
      · rcases ih a ha x h with h2 | h2
        · exact Or.inl (List.mem_cons_of_mem y h2)
        · exact Or.inr h2

/-- C6 (amended): administrative correction overwrites the record's
status with the parsed status, sets provenance to TEACHER (the code's
choice, documented at `attendance/api/views.py` lines 307-312 — the spec
says ADMIN), sets the acting identity to the caller and the timestamp to
`now`, reports the previous status only in the response (the table keeps
a single overwritten row, no history), and rejects an unrecognized
status value before touching the record. -/
theorem C6_correct_overwrites (db : DB) (ctx : TenantContext)
    (user now recordId : Nat) (statusRaw note : String) :
    (parseAttendanceStatus statusRaw = none →
      correct db ctx user now recordId statusRaw note =
        Except.error (ApiError.validationError "status" "Invalid status.")) ∧
    (∀ ns att, parseAttendanceStatus statusRaw = some ns →
      findAttendanceRecord db ctx recordId = some att →
      ∃ db2 resp, correct db ctx user now recordId statusRaw note =
          Except.ok (db2, resp) ∧
        resp.oldStatus = att.status ∧ resp.newStatus = ns ∧
        resp.correctedBy = user ∧ resp.correctedAt = now ∧
        correctedRow att ns user now ∈ db2.attendance ∧
        db2.attendance.length = db.attendance.length ∧
        (∀ r ∈ db2.attendance, r ∈ db.attendance ∨ r = correctedRow att ns user now) ∧
        db2.sessions = db.sessions) := by
  constructor
  · intro hp
    unfold correct
    rw [hp]
  · intro ns att hp hf
    unfold correct
    rw [hp, hf]
    refine ⟨_, _, rfl, rfl, rfl, rfl, rfl, ?_, ?_, ?_, rfl⟩
    · exact mem_f_updateFirst _ _ db.attendance att hf
    · exact updateFirst_length _ _ db.attendance
    · intro r hr
      exact updateFirst_mem_find? _ _ db.attendance att hf r hr

/-- C6 counterexample: correcting the existing ABSENT record to PRESENT
stores provenance TEACHER, not the ADMIN provenance the claim states. -/
theorem C6_counterexample :
    (correct dbW ctxW 9 100 1 "PRESENT" "certificate").toOption.map
        (fun p => p.1.attendance.map (fun r => r.markedByType)) =
      some [MarkedBy.TEACHER] ∧
    MarkedBy.TEACHER ≠ MarkedBy.ADMIN := by
  decide

theorem C6_correct_overwrites_witness :
    parseAttendanceStatus "PRESENT" = some AttendanceStatus.PRESENT ∧
    findAttendanceRecord dbW ctxW 1 = some recordW ∧
    (∃ db2 resp, correct dbW ctxW 9 100 1 "PRESENT" "certificate" =
        Except.ok (db2, resp) ∧
      resp.oldStatus = recordW.status ∧ resp.newStatus = AttendanceStatus.PRESENT ∧
      resp.correctedBy = 9 ∧ resp.correctedAt = 100 ∧
      correctedRow recordW AttendanceStatus.PRESENT 9 100 ∈ db2.attendance ∧
      db2.attendance.length = dbW.attendance.length ∧
      (∀ r ∈ db2.attendance, r ∈ dbW.attendance ∨
        r = correctedRow recordW AttendanceStatus.PRESENT 9 100) ∧
      db2.sessions = dbW.sessions) :=
  ⟨by decide, by decide,
    (C6_correct_overwrites dbW ctxW 9 100 1 "PRESENT" "certificate").2
      AttendanceStatus.PRESENT recordW (by decide) (by decide)⟩

/-- The fold step of `latestMembership`. -/
def latestStep (acc : Option OrgMembership) (m : OrgMembership) : Option OrgMembership :=
  match acc with
  | none => some m
  | some b => if b.createdAt < m.createdAt then some m else some b

theorem latestMembership_eq_foldl (l : List OrgMembership) :
    latestMembership l = l.foldl latestStep none := rfl

theorem latestStep_foldl_spec :
    ∀ (l : List OrgMembership) (acc : Option OrgMembership) (m : OrgMembership),
      l.foldl latestStep acc = some m →
      (m ∈ l ∨ acc = some m) ∧
      (∀ x ∈ l, x.createdAt ≤ m.createdAt) ∧
      (∀ b, acc = some b → b.createdAt ≤ m.createdAt) := by
  intro l
  induction l with
  | nil =>
    intro acc m h
    simp only [List.foldl_nil] at h
    refine ⟨Or.inr h, by simp, ?_⟩
    intro b hb
    rw [hb] at h
    simp only [Option.some_inj] at h
    rw [h]
  | cons x xs ih =>
    intro acc m h
    simp only [List.foldl_cons] at h
    cases acc with
    | none =>
      have hred : latestStep none x = some x := rfl
      rw [hred] at h
      rcases ih (some x) m h with ⟨h1, h2, h3⟩
      refine ⟨?_, ?_, ?_⟩
      · rcases h1 with hmem | heq
        · exact Or.inl (List.mem_cons_of_mem x hmem)
        · simp only [Option.some_inj] at heq
          exact Or.inl (heq ▸ List.mem_cons_self x xs)
      · intro y hy
        rcases List.mem_cons.mp hy with h4 | h4
        · subst h4
          exact h3 y rfl
        · exact h2 y h4
      · intro b hb
        simp at hb
    | some b =>
      by_cases hlt : b.createdAt < x.createdAt
      · have hred : latestStep (some b) x = some x := by
          simp only [latestStep]
          rw [if_pos hlt]
        rw [hred] at h
        rcases ih (some x) m h with ⟨h1, h2, h3⟩
        have hxm : x.createdAt ≤ m.createdAt := h3 x rfl
        refine ⟨?_, ?_, ?_⟩
        · rcases h1 with hmem | heq
          · exact Or.inl (List.mem_cons_of_mem x hmem)
          · simp only [Option.some_inj] at heq
            exact Or.inl (heq ▸ List.mem_cons_self x xs)
        · intro y hy
          rcases List.mem_cons.mp hy with h4 | h4
          · subst h4
            exact hxm
          · exact h2 y h4
        · intro b2 hb2
          simp only [Option.some_inj] at hb2
          subst hb2
          exact le_trans (le_of_lt hlt) hxm
      · have hred : latestStep (some b) x = some b := by
          simp only [latestStep]
          rw [if_neg hlt]
        rw [hred] at h
        rcases ih (some b) m h with ⟨h1, h2, h3⟩
        have hbm : b.createdAt ≤ m.createdAt := h3 b rfl
        refine ⟨?_, ?_, ?_⟩
        · rcases h1 with hmem | heq
          · exact Or.inl (List.mem_cons_of_mem x hmem)
          · exact Or.inr heq
        · intro y hy
          rcases List.mem_cons.mp hy with h4 | h4
          · subst h4
            exact le_trans (le_of_not_lt hlt) hbm
          · exact h2 y h4
        · intro b2 hb2
          simp only [Option.some_inj] at hb2
          subst hb2
          exact hbm

/-- `latestMembership` returns an element of the list with maximal
`createdAt`. -/
theorem latestMembership_spec (l : List OrgMembership) (m : OrgMembership)
    (h : latestMembership l = some m) :
    m ∈ l ∧ ∀ x ∈ l, x.createdAt ≤ m.createdAt := by
  rw [latestMembership_eq_foldl] at h
  rcases latestStep_foldl_spec l none m h with ⟨h1, h2, _⟩
  rcases h1 with h1 | h1
  · exact ⟨h1, h2⟩
  · simp at h1

/-- Successful tenant resolution pins the organisation row and the
membership chosen by `latestMembership` over the branch-independent
ACTIVE filter. -/
theorem get_tenant_context_inv (db : DB) (u orgPid : Nat) (branchSel : Option Nat)
    (ctx : TenantContext)
    (h : get_tenant_context db (some u) (some orgPid) branchSel = Except.ok ctx) :
    db.orgs.find? (fun o => o.publicId == orgPid) = some ctx.organisation ∧
    latestMembership (db.memberships.filter
      (fun m => m.user == u && m.organisation == ctx.organisation.id &&
        m.status == MembershipStatus.ACTIVE)) = some ctx.membership := by
  unfold get_tenant_context at h
  cases ho : db.orgs.find? (fun o => o.publicId == orgPid) with
  | none => simp [ho] at h
  | some org =>
    simp only [ho] at h
    cases hb : resolveBranchSel db org branchSel with
    | error e => simp [hb] at h
    | ok branch? =>
      simp only [hb] at h
      cases hm : latestMembership (db.memberships.filter
          (fun m => m.user == u && m.organisation == org.id &&
            m.status == MembershipStatus.ACTIVE)) with
      | none => simp [hm] at h
      | some mem =>
        simp only [hm, Except.ok.injEq] at h
        have horg : ctx.organisation = org := by rw [← h]
        constructor
        · rw [horg]
        · rw [horg]
          rw [← h]
          exact hm

/-- C10.  Membership resolution is branch-insensitive: two successful
tenant resolutions for the same identity and organisation selector that
differ only in the branch selector produce the same membership and hence
identical role-based permission decisions; the chosen membership is an
ACTIVE membership of that identity in that organisation whose creation
time is maximal among them. -/
theorem C10_membership_branch_insensitive (db : DB) (u orgPid : Nat)
    (b1 b2 : Option Nat) (ctx1 ctx2 : TenantContext)
    (h1 : get_tenant_context db (some u) (some orgPid) b1 = Except.ok ctx1)
    (h2 : get_tenant_context db (some u) (some orgPid) b2 = Except.ok ctx2) :
    ctx1.membership = ctx2.membership ∧
    ctx1.organisation = ctx2.organisation ∧
    (∀ c : OpClass, opPermitted c ctx1 = opPermitted c ctx2) ∧
    ctx1.membership.user = u ∧
    ctx1.membership.organisation = ctx1.organisation.id ∧
    ctx1.membership.status = MembershipStatus.ACTIVE ∧
    (∀ m ∈ db.memberships, m.user = u → m.organisation = ctx1.organisation.id →
      m.status = MembershipStatus.ACTIVE → m.createdAt ≤ ctx1.membership.createdAt) := by
  rcases get_tenant_context_inv db u orgPid b1 ctx1 h1 with ⟨ho1, hm1⟩
  rcases get_tenant_context_inv db u orgPid b2 ctx2 h2 with ⟨ho2, hm2⟩
  have horg : ctx1.organisation = ctx2.organisation := by
    rw [ho1] at ho2
    exact Option.some_inj.mp ho2
  have hmem : ctx1.membership = ctx2.membership := by
    rw [horg] at hm1
    rw [hm1] at hm2
    exact Option.some_inj.mp hm2
  rcases latestMembership_spec _ _ hm1 with ⟨hin, hmax⟩
  have hprops := List.mem_filter.mp hin
  have hp := hprops.2
  simp only [Bool.and_eq_true, beq_iff_eq] at hp
  refine ⟨hmem, horg, ?_, hp.1.1, hp.1.2, hp.2, ?_⟩
  · intro c
    cases c <;> simp [opPermitted, IsTeacher, IsStudent, hmem]
  · intro m hm hu ho hs
    refine hmax m (List.mem_filter.mpr ⟨hm, ?_⟩)
    simp only [Bool.and_eq_true, beq_iff_eq]
    exact ⟨⟨hu, ho⟩, hs⟩

def branchW2 : Branch :=
  { id := 2, organisation := 1, publicId := 202,
    geoCenterLat := none, geoCenterLng := none, geoRadiusM := 50 }

def memStudentNewerW : OrgMembership :=
  { id := 3, user := 5, organisation := 1, branch := some 2,
    role := Role.STUDENT, status := MembershipStatus.ACTIVE, createdAt := 8 }

def memTeacherOldW : OrgMembership :=
  { id := 4, user := 5, organisation := 1, branch := some 1,
    role := Role.TEACHER, status := MembershipStatus.ACTIVE, createdAt := 3 }

def memSuspendedW : OrgMembership :=
  { id := 5, user := 5, organisation := 1, branch := some 1,
    role := Role.ORG_ADMIN, status := MembershipStatus.SUSPENDED, createdAt := 9 }

def dbC10 : DB :=
  { orgs := [orgW]
    branches := [branchW, branchW2]
    batches := []
    students := []
    memberships := [memTeacherOldW, memStudentNewerW, memSuspendedW]
    enrollments := []
    sessions := []
    attendance := []
    nextAttendanceId := 1
    nextSessionId := 1 }

def ctxC10a : TenantContext :=
  { organisation := orgW, branch := some branchW, membership := memStudentNewerW }

def ctxC10b : TenantContext :=
  { organisation := orgW, branch := some branchW2, membership := memStudentNewerW }

theorem C10_membership_branch_insensitive_witness :
    get_tenant_context dbC10 (some 5) (some 101) (some 201) = Except.ok ctxC10a ∧
    get_tenant_context dbC10 (some 5) (some 101) (some 202) = Except.ok ctxC10b ∧
    ctxC10a.membership = ctxC10b.membership :=
  ⟨rfl, rfl,
    (C10_membership_branch_insensitive dbC10 5 101 (some 201) (some 202)
      ctxC10a ctxC10b rfl rfl).1⟩

/-- The condition under which the code's distance layer passes a geo
self-mark: no resolved branch, no (or zero, by Python truthiness)
configured center latitude — i.e. the check is skipped — or a configured
center whose computed distance is within the session's max self-mark
distance. -/
def GeoDistancePasses (session : ClassSession) (dist : ℚ → ℚ → ℚ → ℚ → Nat)
    (input : GeoMarkInput) : Option Branch → Prop
  | none => True
  | some br =>
    match br.geoCenterLat with
    | none => True
    | some lat1 =>
      lat1 = 0 ∨ (∃ lng1, br.geoCenterLng = some lng1 ∧
        dist lat1 lng1 input.lat input.lng ≤ session.maxSelfMarkDistanceM)

theorem geoDistanceCheck_ok_iff (session : ClassSession)
    (dist : ℚ → ℚ → ℚ → ℚ → Nat) (input : GeoMarkInput) (branch? : Option Branch) :
    (∃ n, geoDistanceCheck session dist input branch? = Except.ok n) ↔
      GeoDistancePasses session dist input branch? := by
  cases branch? with
  | none => simp [geoDistanceCheck, GeoDistancePasses]
  | some br =>
    cases hlat : br.geoCenterLat with
    | none => simp [geoDistanceCheck, GeoDistancePasses, hlat]
    | some lat1 =>
      by_cases h0 : lat1 = 0
      · subst h0
        simp [geoDistanceCheck, GeoDistancePasses, hlat]
      · have h0b : (lat1 == 0) = false := by
          rw [beq_eq_false_iff_ne]
          exact h0
        cases hlng : br.geoCenterLng with
        | none =>
          simp [geoDistanceCheck, GeoDistancePasses, hlat, hlng, h0b, h0]
        | some lng1 =>
          by_cases hd : session.maxSelfMarkDistanceM < dist lat1 lng1 input.lat input.lng
          · simp [geoDistanceCheck, GeoDistancePasses, hlat, hlng, h0b, h0, hd]
          · simp [geoDistanceCheck, GeoDistancePasses, hlat, hlng, h0b, h0, hd]
            omega

/-- C2 (amended): the geo self-mark validation accepts exactly when: the
session resolves by id inside the caller's organisation (the branch is
not restricted), its status is OPEN, its self-mark flag is set, the
caller's user has a StudentProfile in the organisation (again not
branch-restricted), and the distance layer passes (which it does
vacuously when no geofence center latitude is configured).  No enrollment
is consulted.  Each failing check yields its own distinct error, the
error propagates out of the endpoint, and a rejected request returns an
error (so no AttendanceRecord is written). -/
theorem C2_selfmark_preconditions (db : DB) (ctx : TenantContext) (user now : Nat)
    (dist : ℚ → ℚ → ℚ → ℚ → Nat) (input : GeoMarkInput) :
    ((∃ v, geoMarkValidate db ctx user dist input = Except.ok v) ↔
      (∃ session, db.sessions.find? (fun s => s.id == input.sessionId &&
          s.organisation == ctx.organisation.id) = some session ∧
        session.status = SessionStatus.OPEN ∧
        session.allowStudentSelfMark = true ∧
        (∃ st, db.students.find? (fun st => st.user == user &&
          st.organisation == ctx.organisation.id) = some st) ∧
        GeoDistancePasses session dist input (geoBranch db ctx session))) ∧
    (∀ e, geoMarkValidate db ctx user dist input = Except.error e →
      student_geo_mark db ctx user now dist input = Except.error e) ∧
    (db.sessions.find? (fun s => s.id == input.sessionId &&
        s.organisation == ctx.organisation.id) = none →
      geoMarkValidate db ctx user dist input =
        Except.error (ApiError.validationError "session_id" "Session not found.")) ∧
    (∀ session, db.sessions.find? (fun s => s.id == input.sessionId &&
        s.organisation == ctx.organisation.id) = some session →
      session.status ≠ SessionStatus.OPEN →
      geoMarkValidate db ctx user dist input =
        Except.error (ApiError.validationError "session_id"
          "Session is not open for self-marking.")) ∧
    (∀ session, db.sessions.find? (fun s => s.id == input.sessionId &&
        s.organisation == ctx.organisation.id) = some session →
      session.status = SessionStatus.OPEN →
      session.allowStudentSelfMark = false →
      geoMarkValidate db ctx user dist input =
        Except.error (ApiError.validationError "session_id"
          "Self-marking is not enabled for this session.")) ∧
    (∀ session, db.sessions.find? (fun s => s.id == input.sessionId &&
        s.organisation == ctx.organisation.id) = some session →
      session.status = SessionStatus.OPEN →
      session.allowStudentSelfMark = true →
      db.students.find? (fun st => st.user == user &&
        st.organisation == ctx.organisation.id) = none →
      geoMarkValidate db ctx user dist input =
        Except.error (ApiError.validationError "detail" "Student profile not found.")) := by
  refine ⟨?_, ?_, ?_, ?_, ?_, ?_⟩
  · constructor
    · rintro ⟨v, hv⟩
      unfold geoMarkValidate at hv
      cases hs : db.sessions.find? (fun s => s.id == input.sessionId &&
          s.organisation == ctx.organisation.id) with
      | none => simp [hs] at hv
      | some session =>
        simp only [hs] at hv
        by_cases hopen : session.status = SessionStatus.OPEN
        · rw [if_neg (by simp [hopen])] at hv
          by_cases hallow : session.allowStudentSelfMark = true
          · rw [if_neg (by simp [hallow])] at hv
            cases hst : db.students.find? (fun st => st.user == user &&
                st.organisation == ctx.organisation.id) with
            | none => simp [hst] at hv
            | some st =>
              simp only [hst] at hv
              refine ⟨session, rfl, hopen, hallow, ⟨st, rfl⟩, ?_⟩
              rw [← geoDistanceCheck_ok_iff session dist input (geoBranch db ctx session)]
              cases hd : geoDistanceCheck session dist input (geoBranch db ctx session) with
              | error e => simp [hd] at hv
              | ok n => exact ⟨n, rfl⟩
          · rw [if_pos (by simp [Bool.eq_false_iff.mpr hallow])] at hv
            simp at hv
        · rw [if_pos (by simp [bne_iff_ne, hopen])] at hv
          simp at hv
    · rintro ⟨session, hs, hopen, hallow, ⟨st, hst⟩, hpass⟩
      unfold geoMarkValidate
      simp only [hs]
      rw [if_neg (by simp [hopen])]
      rw [if_neg (by simp [hallow])]
      simp only [hst]
      rw [← geoDistanceCheck_ok_iff session dist input (geoBranch db ctx session)] at hpass
      rcases hpass with ⟨n, hn⟩
      simp only [hn]
      exact ⟨⟨session, st, n⟩, rfl⟩
  · intro e he
    unfold student_geo_mark
    rw [he]
  · intro hs
    unfold geoMarkValidate
    rw [hs]
  · intro session hs hopen
    unfold geoMarkValidate
    simp only [hs]
    rw [if_pos (by simp [bne_iff_ne, hopen])]
  · intro session hs hopen hallow
    unfold geoMarkValidate
    simp only [hs]
    rw [if_neg (by simp [hopen]), if_pos (by simp [hallow])]
  · intro session hs hopen hallow hst
    unfold geoMarkValidate
    simp only [hs]
    rw [if_neg (by simp [hopen]), if_neg (by simp [hallow])]
    simp only [hst]

/-- A branch with no configured geofence center, its batch and an OPEN
self-markable session held in it; and a student profile whose user is 5,
with an empty enrollment table. -/
def branchNoGeoW : Branch :=
  { id := 3, organisation := 1, publicId := 203,
    geoCenterLat := none, geoCenterLng := none, geoRadiusM := 50 }

def batchNoGeoW : Batch :=
  { id := 3, organisation := 1, branch := 3, status := BatchStatus.ACTIVE }

def memStudentGeoW : OrgMembership :=
  { id := 6, user := 5, organisation := 1, branch := some 1,
    role := Role.STUDENT, status := MembershipStatus.ACTIVE, createdAt := 7 }

def ctxGeo : TenantContext :=
  { organisation := orgW, branch := some branchW, membership := memStudentGeoW }

def studentGeoW : StudentProfile :=
  { id := 11, publicId := 311, user := 5, organisation := 1, branch := 1 }

def sessionOpenW : ClassSession :=
  { id := 2, organisation := 1, branch := 1, batch := 1, sessionDate := 11,
    startTime := none, endTime := none, status := SessionStatus.OPEN,
    allowStudentSelfMark := true, maxSelfMarkDistanceM := 50 }

def sessionNoGeoW : ClassSession :=
  { id := 4, organisation := 1, branch := 3, batch := 3, sessionDate := 12,
    startTime := none, endTime := none, status := SessionStatus.OPEN,
    allowStudentSelfMark := true, maxSelfMarkDistanceM := 50 }

def dbGeo : DB :=
  { orgs := [orgW]
    branches := [branchW, branchNoGeoW]
    batches := [batchW, batchNoGeoW]
    students := [studentGeoW]
    memberships := [memStudentGeoW]
    enrollments := []
    sessions := [sessionOpenW, sessionNoGeoW]
    attendance := []
    nextAttendanceId := 1
    nextSessionId := 5 }

def inputGeoW : GeoMarkInput :=
  { sessionId := 2, lat := 28, lng := 77, status := AttendanceStatus.PRESENT }

def inputNoGeoW : GeoMarkInput :=
  { sessionId := 4, lat := 28, lng := 77, status := AttendanceStatus.PRESENT }

/-- C2 counterexample: the claim requires rejection whenever the caller
holds no ACTIVE enrollment in the session's batch; here the enrollment
table is empty (and the student profile lookup ignores the branch), yet
validation succeeds. -/
theorem C2_counterexample :
    dbGeo.enrollments = [] ∧
    geoMarkValidate dbGeo ctxGeo 5 distW inputGeoW =
      Except.ok { session := sessionOpenW, student := studentGeoW, distanceM := 10 } :=
  ⟨rfl, rfl⟩

theorem C2_selfmark_preconditions_witness :
    dbGeo.sessions.find? (fun s => s.id == (99 : Nat) &&
      s.organisation == ctxGeo.organisation.id) = none ∧
    geoMarkValidate dbGeo ctxGeo 5 distW
        { sessionId := 99, lat := 28, lng := 77, status := AttendanceStatus.PRESENT } =
      Except.error (ApiError.validationError "session_id" "Session not found.") :=
  ⟨rfl,
    (C2_selfmark_preconditions dbGeo ctxGeo 5 100 distW
      { sessionId := 99, lat := 28, lng := 77,
        status := AttendanceStatus.PRESENT }).2.2.1 rfl⟩

/-- C4: with no geofence center configured on the branch the code fails
OPEN, not closed: the distance check is skipped and validation accepts
the self-mark with distance 0, where the claim requires outright
rejection.  (The subsequent write then fails for the unrelated reason
established in C5, so no record is stored — but no geofence rejection
ever happens.) -/
theorem C4_no_geofence_fails_open :
    branchNoGeoW.geoCenterLat = none ∧
    geoBranch dbGeo ctxGeo sessionNoGeoW = some branchNoGeoW ∧
    geoMarkValidate dbGeo ctxGeo 5 distW inputNoGeoW =
      Except.ok { session := sessionNoGeoW, student := studentGeoW, distanceM := 0 } :=
  ⟨rfl, rfl, rfl⟩

/-- C5: a fully valid self-mark request (configured center, within
radius) passes validation and then the endpoint raises: the write path
references the undefined `MarkedBy.STUDENT` enum member, so no
AttendanceRecord is ever written with provenance STUDENT_GEO, no distance
or coordinates are stored, and no success response is produced. -/
theorem C5_geo_mark_never_succeeds :
    geoMarkValidate dbGeo ctxGeo 5 distW inputGeoW =
      Except.ok { session := sessionOpenW, student := studentGeoW, distanceM := 10 } ∧
    student_geo_mark dbGeo ctxGeo 5 100 distW inputGeoW =
      Except.error (ApiError.attributeError
        "type object MarkedBy has no attribute STUDENT") :=
  ⟨rfl, rfl⟩

theorem filter_updateFirst_disjoint {α : Type _} (p q : α → Bool) (f : α → α)
    (hdisj : ∀ x, q x = true → p x = false) (hpf : ∀ x, p (f x) = p x) :
    ∀ l : List α, (updateFirst q f l).filter p = l.filter p := by
  intro l
  induction l with
  | nil => rfl
  | cons x xs ih =>
    by_cases hqx : q x = true
    · simp only [updateFirst, hqx, if_true]
      have hpx : p x = false := hdisj x hqx
      have hpfx : p (f x) = false := by rw [hpf x]; exact hpx
      rw [List.filter_cons_of_neg (by simp [hpfx]), List.filter_cons_of_neg (by simp [hpx])]
    · simp only [updateFirst]
      rw [if_neg hqx]
      by_cases hpx : p x = true
      · rw [List.filter_cons_of_pos hpx, List.filter_cons_of_pos hpx, ih]
      · rw [List.filter_cons_of_neg (by simp [hpx]), List.filter_cons_of_neg (by simp [hpx]),
          ih]

/-- An upsert does not disturb the rows at any other key. -/
theorem upsert_filter_other (store : List StudentAttendance) (nid k s k2 s2 : Nat)
    (d : AttendanceDefaults) (hne : (k2, s2) ≠ (k, s)) :
    (update_or_create store nid k s d).1.filter (keyIs k2 s2) =
      store.filter (keyIs k2 s2) := by
  have hdisj : ∀ r, keyIs k s r = true → keyIs k2 s2 r = false := by
    intro r hks
    rw [Bool.eq_false_iff]
    intro hk2
    rcases (keyIs_iff k s r).mp hks with ⟨h1, h2⟩
    rcases (keyIs_iff k2 s2 r).mp hk2 with ⟨h3, h4⟩
    exact hne (by rw [← h3, ← h4, h1, h2])
  unfold update_or_create
  cases hfind : store.find? (keyIs k s) with
  | some r0 =>
    exact filter_updateFirst_disjoint (keyIs k2 s2) (keyIs k s)
      (fun r => applyDefaults r d) hdisj (fun r => keyIs_applyDefaults k2 s2 r d) store
  | none =>
    rw [List.filter_append]
    have hfr : keyIs k2 s2 (freshRow nid k s d) = false := by
      apply hdisj
      rw [keyIs_iff]
      exact ⟨rfl, rfl⟩
    simp [hfr]

/-- Every row after an upsert is an old row or sits at the upsert key. -/
theorem upsert_mem_key (store : List StudentAttendance) (nid k s : Nat)
    (d : AttendanceDefaults) (r : StudentAttendance)
    (hr : r ∈ (update_or_create store nid k s d).1) :
    r ∈ store ∨ (r.session = k ∧ r.student = s) := by
  unfold update_or_create at hr
  cases hfind : store.find? (keyIs k s) with
  | some r0 =>
    rw [hfind] at hr
    rcases updateFirst_mem _ _ store r hr with h | ⟨y, hy, hpy, hxy⟩
    · exact Or.inl h
    · right
      rcases (keyIs_iff k s y).mp hpy with ⟨h1, h2⟩
      rw [hxy]
      exact ⟨h1, h2⟩
  | none =>
    rw [hfind] at hr
    rcases List.mem_append.mp hr with h | h
    · exact Or.inl h
    · simp only [List.mem_singleton] at h
      right
      rw [h]
      exact ⟨rfl, rfl⟩

theorem resolveStudent_props (db : DB) (ctx : TenantContext) (pid : Nat)
    (st : StudentProfile) (h : resolveStudent db ctx pid = some st) :
    st ∈ db.students ∧ st.publicId = pid := by
  unfold resolveStudent at h
  refine ⟨List.mem_of_find?_eq_some h, ?_⟩
  have := List.find?_some h
  simp only [Bool.and_eq_true, beq_iff_eq] at this
  exact this.2

theorem bulkMarkRows_filter_untouched (db : DB) (ctx : TenantContext) (user now : Nat)
    (session : ClassSession) (cb : Branch) (stuId : Nat) :
    ∀ rows store nid,
      (∀ row ∈ rows, ∀ st, resolveStudent db ctx row.studentPublicId = some st →
        st.id ≠ stuId) →
      (bulkMarkRows db ctx user now session cb rows store nid).1.filter
          (keyIs session.id stuId) =
        store.filter (keyIs session.id stuId) := by
  intro rows
  induction rows with
  | nil => intro store nid _; rfl
  | cons row rest ih =>
    intro store nid hne
    cases hres : resolveStudent db ctx row.studentPublicId with
    | none =>
      simp only [bulkMarkRows, hres]
      exact ih store nid (fun r hr => hne r (List.mem_cons_of_mem row hr))
    | some st =>
      simp only [bulkMarkRows, hres]
      rw [ih _ _ (fun r hr => hne r (List.mem_cons_of_mem row hr))]
      refine upsert_filter_other store nid session.id st.id session.id stuId _ ?_
      intro hpair
      exact hne row (List.mem_cons_self row rest) st hres
        (by
          have := congrArg Prod.snd hpair
          simp at this
          exact this.symm)

theorem bulkMarkRows_spec (db : DB) (ctx : TenantContext) (user now : Nat)
    (session : ClassSession) (cb : Branch)
    (hsid : (db.students.map (fun st => st.id)).Nodup) :
    ∀ rows store nid, KeyUnique store →
      (rows.map (fun r => r.studentPublicId)).Nodup →
      (bulkMarkRows db ctx user now session cb rows store nid).2.2 =
        rows.countP (fun row => (resolveStudent db ctx row.studentPublicId).isSome) ∧
      (∀ row ∈ rows, ∀ st, resolveStudent db ctx row.studentPublicId = some st →
        ∃ r, (bulkMarkRows db ctx user now session cb rows store nid).1.filter
            (keyIs session.id st.id) = [r] ∧
          r.status = row.status ∧ r.markedByType = MarkedBy.TEACHER ∧
          r.markedByUser = user ∧ r.markedAt = now ∧
          r.organisation = ctx.organisation.id ∧ r.branch = cb.id ∧
          r.batch = session.batch) ∧
      (∀ r ∈ (bulkMarkRows db ctx user now session cb rows store nid).1,
        r ∈ store ∨ ∃ row ∈ rows, ∃ st,
          resolveStudent db ctx row.studentPublicId = some st ∧
          r.session = session.id ∧ r.student = st.id) := by
  intro rows
  induction rows with
  | nil =>
    intro store nid hU hnd
    exact ⟨rfl, by simp, fun r hr => Or.inl hr⟩
  | cons row rest ih =>
    intro store nid hU hnd
    have hnd' : (rest.map (fun r => r.studentPublicId)).Nodup := (List.nodup_cons.mp hnd).2
    have hnotin : row.studentPublicId ∉ rest.map (fun r => r.studentPublicId) :=
      (List.nodup_cons.mp hnd).1
    cases hres : resolveStudent db ctx row.studentPublicId with
    | none =>
      simp only [bulkMarkRows, hres]
      rcases ih store nid hU hnd' with ⟨hc, hrow, hmem⟩
      refine ⟨?_, ?_, ?_⟩
      · rw [hc, List.countP_cons]
        simp [hres]
      · intro row2 hrow2 st hst
        rcases List.mem_cons.mp hrow2 with h | h
        · subst h
          rw [hres] at hst
          cases hst
        · exact hrow row2 h st hst
      · intro r hr
        rcases hmem r hr with h | ⟨row2, hrow2, st, h1, h2, h3⟩
        · exact Or.inl h
        · exact Or.inr ⟨row2, List.mem_cons_of_mem row hrow2, st, h1, h2, h3⟩
    | some st0 =>
      simp only [bulkMarkRows, hres]
      have hU2 : KeyUnique (update_or_create store nid session.id st0.id
          (bulkDefaults ctx cb session row.status user now)).1 :=
        upsert_KeyUnique store nid session.id st0.id _ hU
      rcases ih (update_or_create store nid session.id st0.id
          (bulkDefaults ctx cb session row.status user now)).1
        (update_or_create store nid session.id st0.id
          (bulkDefaults ctx cb session row.status user now)).2.1 hU2 hnd' with
        ⟨hc, hrow, hmem⟩
      have hrest_ne : ∀ row2 ∈ rest, ∀ st, resolveStudent db ctx row2.studentPublicId =
          some st → st.id ≠ st0.id := by
        intro row2 hrow2 st hst heq
        rcases resolveStudent_props db ctx row2.studentPublicId st hst with ⟨hstm, hstp⟩
        rcases resolveStudent_props db ctx row.studentPublicId st0 hres with ⟨hst0m, hst0p⟩
        have : st = st0 := List.inj_on_of_nodup_map hsid hstm hst0m heq
        refine hnotin ?_
        rw [← hst0p, ← this, hstp]
        exact List.mem_map_of_mem (fun r => r.studentPublicId) hrow2
      refine ⟨?_, ?_, ?_⟩
      · rw [hc, List.countP_cons]
        simp [hres]
      · intro row2 hrow2 st hst
        rcases List.mem_cons.mp hrow2 with h | h
        · subst h
          rw [hres] at hst
          have hst0 : st = st0 := (Option.some_inj.mp hst).symm
          subst hst0
          rw [bulkMarkRows_filter_untouched db ctx user now session cb st.id rest _ _
            hrest_ne]
          rcases upsert_filter store nid session.id st.id
            (bulkDefaults ctx cb session row2.status user now) hU with
            ⟨r, hfil, _, _, hstv, hmt, hmu, hma, horg, hbr, hbt⟩
          exact ⟨r, hfil, hstv, hmt, hmu, hma, horg, hbr, hbt⟩
        · exact hrow row2 h st hst
      · intro r hr
        rcases hmem r hr with h | ⟨row2, hrow2, st, h1, h2, h3⟩
        · rcases upsert_mem_key store nid session.id st0.id _ r h with h4 | ⟨h4, h5⟩
          · exact Or.inl h4
          · exact Or.inr ⟨row, List.mem_cons_self row rest, st0, hres, h4, h5⟩
        · exact Or.inr ⟨row2, List.mem_cons_of_mem row hrow2, st, h1, h2, h3⟩

/-- C8.  Teacher bulk mark on a session resolved in the caller's
organisation and branch: unknown student identifiers are silently skipped
(no record appears for them), every resolvable student's row is upserted
with the requested status, provenance TEACHER, the caller and `now`, the
response reports the number of saved rows, and nothing constrains the
session's status (the hypotheses hold for a CLOSED session as well). -/
theorem C8_teacher_bulk_mark (db : DB) (ctx : TenantContext) (user now sessionId : Nat)
    (rows : List BulkRow) (cb : Branch) (session : ClassSession)
    (hcb : ctx.branch = some cb)
    (hfind : db.sessions.find? (fun s => s.id == sessionId &&
      s.organisation == ctx.organisation.id && s.branch == cb.id) = some session)
    (hrows : rows ≠ [])
    (hU : KeyUnique db.attendance)
    (hpids : (rows.map (fun r => r.studentPublicId)).Nodup)
    (hsid : (db.students.map (fun st => st.id)).Nodup) :
    ∃ db2, teacher_bulk_mark db ctx user now sessionId rows = Except.ok
        (db2, rows.countP (fun row => (resolveStudent db ctx row.studentPublicId).isSome)) ∧
      (∀ row ∈ rows, ∀ st, resolveStudent db ctx row.studentPublicId = some st →
        ∃ r, db2.attendance.filter (keyIs session.id st.id) = [r] ∧
          r.status = row.status ∧ r.markedByType = MarkedBy.TEACHER ∧
          r.markedByUser = user ∧ r.markedAt = now ∧
          r.organisation = ctx.organisation.id ∧ r.branch = cb.id ∧
          r.batch = session.batch) ∧
      (∀ r ∈ db2.attendance, r ∈ db.attendance ∨ ∃ row ∈ rows, ∃ st,
        resolveStudent db ctx row.studentPublicId = some st ∧
        r.session = session.id ∧ r.student = st.id) := by
  rcases bulkMarkRows_spec db ctx user now session cb hsid rows db.attendance
    db.nextAttendanceId hU hpids with ⟨hc, hrow, hmem⟩
  refine ⟨{ db with
      attendance := (bulkMarkRows db ctx user now session cb rows db.attendance
        db.nextAttendanceId).1
      nextAttendanceId := (bulkMarkRows db ctx user now session cb rows db.attendance
        db.nextAttendanceId).2.1 }, ?_, ?_, ?_⟩
  · unfold teacher_bulk_mark
    rw [if_neg (by simp [hrows])]
    simp only [hcb, hfind]
    rw [hc]
  · intro row hrowm st hst
    exact hrow row hrowm st hst
  · intro r hr
    exact hmem r hr

/-- Five target students of which two (304, 305) do not exist in the
branch; the session is CLOSED. -/
def rows5 : List BulkRow :=
  [⟨301, AttendanceStatus.PRESENT⟩, ⟨302, AttendanceStatus.ABSENT⟩,
   ⟨303, AttendanceStatus.LATE⟩, ⟨304, AttendanceStatus.PRESENT⟩,
   ⟨305, AttendanceStatus.PRESENT⟩]

theorem C8_teacher_bulk_mark_witness :
    sessionW.status = SessionStatus.CLOSED ∧
    (∃ db2, teacher_bulk_mark dbW ctxW 9 100 1 rows5 = Except.ok (db2, 3)) := by
  refine ⟨rfl, ?_⟩
  rcases C8_teacher_bulk_mark dbW ctxW 9 100 1 rows5 branchW sessionW rfl rfl
    (by decide) (by decide) (by decide) (by decide) with ⟨db2, h1, _, _⟩
  refine ⟨db2, ?_⟩
  have hcnt : rows5.countP
      (fun row => (resolveStudent dbW ctxW row.studentPublicId).isSome) = 3 := by decide
  rw [hcnt] at h1
  exact h1

theorem mem_insertByPct (x z : StudentRow) :
    ∀ l, z ∈ insertByPct x l ↔ z = x ∨ z ∈ l := by
  intro l
  induction l with
  | nil => simp [insertByPct]
  | cons y ys ih =>
    by_cases hle : x.attendancePct ≤ y.attendancePct
    · simp [insertByPct, hle]
    · simp only [insertByPct, if_neg hle, List.mem_cons, ih]
      tauto

theorem insertByPct_pairwise (x : StudentRow) :
    ∀ l, l.Pairwise (fun a b => a.attendancePct ≤ b.attendancePct) →
      (insertByPct x l).Pairwise (fun a b => a.attendancePct ≤ b.attendancePct) := by
  intro l
  induction l with
  | nil => intro _; simp [insertByPct]
  | cons y ys ih =>
    intro hp
    rcases List.pairwise_cons.mp hp with ⟨hy, hys⟩
    by_cases hle : x.attendancePct ≤ y.attendancePct
    · simp only [insertByPct, if_pos hle]
      refine List.pairwise_cons.mpr ⟨?_, hp⟩
      intro z hz
      rcases List.mem_cons.mp hz with h | h
      · rw [h]; exact hle
      · exact le_trans hle (hy z h)
    · simp only [insertByPct, if_neg hle]
      refine List.pairwise_cons.mpr ⟨?_, ih hys⟩
      intro z hz
      rcases (mem_insertByPct x z ys).mp hz with h | h
      · rw [h]
        exact le_of_not_le hle
      · exact hy z h

theorem sortByPct_pairwise :
    ∀ l, (sortByPct l).Pairwise (fun a b => a.attendancePct ≤ b.attendancePct) := by
  intro l
  induction l with
  | nil => simp [sortByPct]
  | cons x xs ih => exact insertByPct_pairwise x (sortByPct xs) ih

theorem mem_sortByPct (z : StudentRow) : ∀ l, z ∈ sortByPct l ↔ z ∈ l := by
  intro l
  induction l with
  | nil => simp [sortByPct]
  | cons x xs ih =>
    simp only [sortByPct, mem_insertByPct, List.mem_cons, ih]

theorem summaryRowFor_fields (db : DB) (batch : Batch) (fromD toD : Nat)
    (st : StudentProfile) :
    (summaryRowFor db batch fromD toD st).attendancePct =
      (if 0 < totalSessionsInRange db batch fromD toD then
        pyRound1 (((summaryRowFor db batch fromD toD st).present : ℚ) /
          (totalSessionsInRange db batch fromD toD : ℚ) * 100) else 0) ∧
    (summaryRowFor db batch fromD toD st).rowStatus =
      bandOf (summaryRowFor db batch fromD toD st).attendancePct :=
  ⟨rfl, rfl⟩

theorem bandOf_iff (pct : ℚ) :
    (bandOf pct = "Good" ↔ 80 ≤ pct) ∧
    (bandOf pct = "Warning" ↔ 60 ≤ pct ∧ pct < 80) ∧
    (bandOf pct = "Critical" ↔ pct < 60) := by
  unfold bandOf
  by_cases h80 : 80 ≤ pct
  · rw [if_pos h80]
    refine ⟨iff_of_true rfl h80, ?_, ?_⟩
    · refine iff_of_false (by decide) ?_
      rintro ⟨_, h2⟩
      exact absurd h80 (not_le.mpr h2)
    · refine iff_of_false (by decide) ?_
      intro hlt
      exact absurd h80 (not_le.mpr (lt_of_lt_of_le hlt (by norm_num)))
  · rw [if_neg h80]
    by_cases h60 : 60 ≤ pct
    · rw [if_pos h60]
      refine ⟨iff_of_false (by decide) h80, ?_, ?_⟩
      · exact iff_of_true rfl ⟨h60, not_le.mp h80⟩
      · exact iff_of_false (by decide) (not_lt.mpr h60)
    · rw [if_neg h60]
      refine ⟨iff_of_false (by decide) h80, ?_, ?_⟩
      · refine iff_of_false (by decide) ?_
        rintro ⟨h1, _⟩
        exact h60 h1
      · exact iff_of_true rfl (not_le.mp h60)

theorem student_summary_inv (db : DB) (ctx : TenantContext) (fromD toD batchId : Nat)
    (resp : SummaryResponse)
    (h : student_summary db ctx fromD toD batchId = Except.ok resp) :
    ∃ batch, db.batches.find? (fun b => b.id == batchId &&
        b.organisation == ctx.organisation.id && branchMatches b.branch ctx.branch) =
      some batch ∧
      resp.totalSessions = totalSessionsInRange db batch fromD toD ∧
      resp.students = sortByPct ((enrolledStudents db batch).map
        (summaryRowFor db batch fromD toD)) := by
  unfold student_summary at h
  cases hb : db.batches.find? (fun b => b.id == batchId &&
      b.organisation == ctx.organisation.id && branchMatches b.branch ctx.branch) with
  | none => rw [hb] at h; simp at h
  | some batch =>
    rw [hb] at h
    simp only [Except.ok.injEq] at h
    exact ⟨batch, rfl, by rw [← h], by rw [← h]⟩

/-- Sessions 1..10 of the batch, a single enrolled student with 7
PRESENT, 2 ABSENT and 1 LATE records. -/
def sessionC9 (i : Nat) : ClassSession :=
  { id := i, organisation := 1, branch := 1, batch := 1, sessionDate := i,
    startTime := none, endTime := none, status := SessionStatus.CLOSED,
    allowStudentSelfMark := true, maxSelfMarkDistanceM := 50 }

def recC9 (i : Nat) (stv : AttendanceStatus) : StudentAttendance :=
  { id := i, organisation := 1, branch := 1, batch := 1, session := i, student := 1,
    status := stv, markedByType := MarkedBy.TEACHER, markedByUser := 9, markedAt := i,
    markedLat := none, markedLng := none, distanceFromBranchM := none }

def dbC9 : DB :=
  { orgs := [orgW]
    branches := [branchW]
    batches := [batchW]
    students := [studentW 1]
    memberships := [memTeacherW]
    enrollments := [{ id := 1, batch := 1, student := 1, status := EnrollmentStatus.ACTIVE }]
    sessions := (List.range 10).map (fun i => sessionC9 (i + 1))
    attendance := ((List.range 7).map (fun i => recC9 (i + 1) AttendanceStatus.PRESENT)) ++
      [recC9 8 AttendanceStatus.ABSENT, recC9 9 AttendanceStatus.ABSENT,
       recC9 10 AttendanceStatus.LATE]
    nextAttendanceId := 11
    nextSessionId := 11 }

def rowC9 : StudentRow :=
  { studentId := 1, publicId := 301, present := 7, absent := 2, late := 1,
    attendancePct := 70, rowStatus := "Warning" }

def respC9 : SummaryResponse := { batchId := 1, totalSessions := 10, students := [rowC9] }

/-- C9.  Per-student summary: each reported row's percentage equals
present count over the number of sessions of the batch in range times
100 (rounded to one decimal, 0 when no sessions), its status is the
banding Good at 80 or above, Warning from 60 up to 80, Critical below
60, rows come sorted ascending by percentage — and on the concrete
10-session batch with 7 PRESENT / 2 ABSENT / 1 LATE records the summary
reports exactly one row with percentage 70 and status Warning. -/
theorem C9_student_summary (db : DB) (ctx : TenantContext) (fromD toD batchId : Nat)
    (resp : SummaryResponse)
    (h : student_summary db ctx fromD toD batchId = Except.ok resp) :
    (∀ row ∈ resp.students,
      row.attendancePct = (if 0 < resp.totalSessions then
        pyRound1 ((row.present : ℚ) / (resp.totalSessions : ℚ) * 100) else 0) ∧
      row.rowStatus = bandOf row.attendancePct ∧
      (row.rowStatus = "Good" ↔ 80 ≤ row.attendancePct) ∧
      (row.rowStatus = "Warning" ↔ 60 ≤ row.attendancePct ∧ row.attendancePct < 80) ∧
      (row.rowStatus = "Critical" ↔ row.attendancePct < 60)) ∧
    resp.students.Pairwise (fun a b => a.attendancePct ≤ b.attendancePct) ∧
    student_summary dbC9 ctxW 1 31 1 = Except.ok respC9 := by
  rcases student_summary_inv db ctx fromD toD batchId resp h with
    ⟨batch, hb, htot, hstud⟩
  refine ⟨?_, ?_, ?_⟩
  · intro row hrow
    rw [hstud] at hrow
    rw [mem_sortByPct] at hrow
    rcases List.mem_map.mp hrow with ⟨st, _, hst⟩
    subst hst
    rcases summaryRowFor_fields db batch fromD toD st with ⟨hpct, hband⟩
    rw [htot]
    refine ⟨hpct, hband, ?_, ?_, ?_⟩
    · rw [hband]
      exact (bandOf_iff _).1
    · rw [hband]
      exact (bandOf_iff _).2.1
    · rw [hband]
      exact (bandOf_iff _).2.2
  · rw [hstud]
    exact sortByPct_pairwise _
  · with_unfolding_all decide

theorem C9_student_summary_witness :
    student_summary dbC9 ctxW 1 31 1 = Except.ok respC9 ∧
    respC9.students.Pairwise (fun a b => a.attendancePct ≤ b.attendancePct) :=
  ⟨by with_unfolding_all decide,
    (C9_student_summary dbC9 ctxW 1 31 1 respC9 (by with_unfolding_all decide)).2.1⟩

end Coach
